import Mathlib

/-!
# sync-wiser core runtime: shallow embedding

This file embeds the per-document runtime of `src/runtime/runtime.ts` and the
storage hydration helper of `src/storage/helpers.ts` as executable Lean
functions, and proves the spec's claims about them.

Modelling decisions (documented once here):

* Byte buffers (`Uint8Array`) are `List Nat`; `byteLength` is `List.length`.
  The runtime never inspects blob contents, so this is faithful.
* The Yjs document is abstracted as the list of update blobs applied to it;
  `Y.encodeStateAsUpdate` / `Y.encodeStateVector` are arbitrary executable
  functions of that list (the runtime treats both as opaque bytes).
* Promise-based code is linearized: each runtime method becomes a function
  `St → St × List Ev × Bool` returning the successor state, the chronological
  trace of observable effects (storage calls, sync/realtime calls, emitted
  sync events) and a completion flag (`false` = the returned promise rejects).
  Sequencing `a; await b` is function composition with trace concatenation;
  a rejection short-circuits the remaining steps of the method, exactly as
  `await` does.  The per-document serializer (`enqueueSync`) runs tasks
  strictly FIFO, so executing an enqueued task inline right after the code
  that enqueued it is a faithful linearization for a single document.
* The fire-and-forget `persistUpdate` triggered by the CRDT update hook for
  SYNC / REALTIME origins is executed at the point the hook fires.
* Storage writes always succeed in this model (no claim concerns storage
  failure); pull and push outcomes are supplied by per-call oracles carried
  in the state.  Errors thrown by the source are represented by the `false`
  completion flag; `assembleStoredDoc`'s missing-`getUpdates` throw is an
  `Except.error`.
* `refreshModelData`, logging text, event timestamps and the
  `updatesApplied` / `bytes` / `error` payload fields of emitted sync events
  have no bearing on any claim and are not part of the observable trace;
  warn-once bookkeeping for missing optional storage methods is kept.
-/

set_option autoImplicit false

namespace SyncWiser

/-- Opaque byte buffer (`Uint8Array`). -/
abbrev Blob := List Nat

/-- A Yjs `Y.Doc`, abstracted as the sequence of update blobs applied to it. -/
abbrev DocT := List Blob

/-- `Y.applyUpdate doc update` (origin tags are handled by the caller). -/
def applyUpdate (d : DocT) (u : Blob) : DocT := d ++ [u]

/-- `Y.encodeStateAsUpdate doc`: an opaque full-state blob of the document. -/
def encodeStateAsUpdate (d : DocT) : Blob := d.flatten

/-- `Y.encodeStateVector doc`: an opaque state-vector blob of the document. -/
def encodeStateVector (d : DocT) : Blob := [d.length]

/-- The origin token attached to an update delivered to the CRDT update hook.
`STORAGE_ORIGIN`, `SYNC_ORIGIN` and `REALTIME_ORIGIN` are the three private
symbols of the runtime; every other origin (caller supplied or undefined) is
`other`. -/
inductive Origin
  | storage
  | sync
  | realtime
  | other (tag : Nat)
deriving DecidableEq

/-- Names of the optional `StorageAdapter` methods, for warn-once tracking. -/
inductive MethodName
  | setSnapshotM
  | markPendingSyncM
  | clearPendingSyncM
  | markSnapshotSyncedM
deriving DecidableEq

/-- Direction of an emitted `WiserSyncEvent`. -/
inductive Dir
  | pull
  | push
deriving DecidableEq

/-- Phase of an emitted `WiserSyncEvent`. -/
inductive Phase
  | start
  | success
  | error
deriving DecidableEq

/-- One observable effect of the runtime, in chronological order:
storage-adapter calls, sync-adapter calls, realtime publishes, emitted
sync events and warn-once logs. -/
inductive Ev
  | appendUpdate (update : Blob)
  | markPendingSync (updates : List Blob)
  | clearPendingSync
  | setSnapshot (snapshot : Blob)
  | markSnapshotSynced (generation : Nat)
  | pullCall (stateVector : Option Blob) (requestSnapshot : Bool)
  | pushCall (update : Blob) (isSnapshot : Bool)
  | publish (update : Blob)
  | emit (direction : Dir) (phase : Phase)
      (isSnapshot : Option Bool) (requestSnapshot : Option Bool)
  | warnMissing (method : MethodName)
deriving DecidableEq

/-- `policies.snapshotEvery` of `WiserConfig`. -/
structure SnapshotEveryPolicy where
  updates : Option Nat
  bytes : Option Nat
deriving DecidableEq

/-- `policies.snapshotSync` of `WiserConfig`. -/
structure SnapshotSyncPolicy where
  send : Option Bool
  requestOnNewDocument : Option Bool
deriving DecidableEq

/-- `policies` of `WiserConfig` (only the fields the runtime reads). -/
structure Policies where
  snapshotEvery : Option SnapshotEveryPolicy
  pullBeforePush : Option Bool
  snapshotSync : Option SnapshotSyncPolicy
deriving DecidableEq

/-- An optional codec (`CodecAdapter`). -/
structure Codec where
  enc : Blob → Blob
  dec : Blob → Blob

/-- The runtime configuration: which adapters exist, the policies, the codec,
and which optional `StorageAdapter` methods the adapter implements. -/
structure Config where
  hasSync : Bool
  hasRealtime : Bool
  codec : Option Codec
  policies : Option Policies
  hasSetSnapshot : Bool
  hasMarkPendingSync : Bool
  hasClearPendingSync : Bool
  hasMarkSnapshotSynced : Bool

/-- `WiserRuntime.encode`: apply the codec if configured. -/
def Config.encode (cfg : Config) (u : Blob) : Blob :=
  match cfg.codec with
  | none => u
  | some c => c.enc u

/-- `WiserRuntime.decode`: apply the codec if configured. -/
def Config.decode (cfg : Config) (u : Blob) : Blob :=
  match cfg.codec with
  | none => u
  | some c => c.dec u

/-- Outcome of one `sync.pull` call: rejection, or resolution with
`Uint8Array | null`. -/
inductive PullOutcome
  | fail
  | ok (result : Option Blob)
deriving DecidableEq

/-- The record returned by the optional `storage.getSnapshot`:
`{ snapshot?, snapshotGeneration?, syncedSnapshotGeneration? }`. -/
structure StoredSnapshotRecord where
  snapshot : Option Blob
  snapshotGeneration : Option Nat
  syncedSnapshotGeneration : Option Nat
deriving DecidableEq

/-- A `StorageAdapter`'s read surface for one document.  For each getter,
`none` means the optional method is absent from the adapter, `some none`
means it returns `null`, and `some (some v)` means it returns `v`. -/
structure Adapter where
  getSnapshot : Option (Option StoredSnapshotRecord)
  getUpdates : Option (Option (List Blob))
  getPendingSync : Option (Option (List Blob))
deriving DecidableEq

/-- The assembled `StoredDoc` produced by `assembleStoredDoc`. -/
structure StoredDoc where
  snapshot : Option Blob
  updates : List Blob
  pendingSync : List Blob
  snapshotGeneration : Option Nat
  syncedSnapshotGeneration : Option Nat
deriving DecidableEq

/-- Which of the three storage reads `assembleStoredDoc` performed. -/
inductive StorageRead
  | snapshotRead
  | updatesRead
  | pendingSyncRead
deriving DecidableEq

/-- `assembleStoredDoc` of `src/storage/helpers.ts`, together with the list
of reads it performed.  The source throws when `getUpdates` is absent
(`Except.error`); a `null` from `getSnapshot` or `getUpdates` returns `null`
immediately (skipping the remaining reads); a `null` from `getPendingSync`
returns `null` after all three reads; otherwise the parts are assembled and
`null` is returned when there is no data at all (`hasData`). -/
def assembleStoredDoc (a : Adapter) :
    Except Unit (Option StoredDoc) × List StorageRead :=
  match a.getUpdates with
  | none => (Except.error (), [])
  | some updatesResult =>
    match a.getSnapshot with
    | some none => (Except.ok none, [StorageRead.snapshotRead])
    | snapGetter =>
      let snapReads : List StorageRead :=
        match snapGetter with
        | none => []
        | some _ => [StorageRead.snapshotRead]
      let snapRec : Option StoredSnapshotRecord :=
        match snapGetter with
        | some (some r) => some r
        | _ => none
      match updatesResult with
      | none => (Except.ok none, snapReads ++ [StorageRead.updatesRead])
      | some updates =>
        match a.getPendingSync with
        | some none =>
          (Except.ok none,
            snapReads ++ [StorageRead.updatesRead, StorageRead.pendingSyncRead])
        | pendGetter =>
          let pendReads : List StorageRead :=
            match pendGetter with
            | none => []
            | some _ => [StorageRead.pendingSyncRead]
          let pendingSync : List Blob :=
            match pendGetter with
            | some (some l) => l
            | _ => []
          let snapshot : Option Blob := snapRec.bind StoredSnapshotRecord.snapshot
          let snapshotGeneration : Option Nat :=
            snapRec.bind StoredSnapshotRecord.snapshotGeneration
          let syncedSnapshotGeneration : Option Nat :=
            snapRec.bind StoredSnapshotRecord.syncedSnapshotGeneration
          let reads := snapReads ++ [StorageRead.updatesRead] ++ pendReads
          let hasData : Bool :=
            snapshot.isSome || !updates.isEmpty || !pendingSync.isEmpty ||
              snapshotGeneration.isSome || syncedSnapshotGeneration.isSome
          if hasData then
            (Except.ok (some
              { snapshot := snapshot
                updates := updates
                pendingSync := pendingSync
                snapshotGeneration := snapshotGeneration
                syncedSnapshotGeneration := syncedSnapshotGeneration }), reads)
          else
            (Except.ok none, reads)

/-- The state of one `ManagedDoc` together with the storage-side records the
runtime writes, the environment oracles for pull/push outcomes, and the
warn-once bookkeeping of `WiserRuntime.missingStorageMethods`. -/
structure St where
  doc : DocT
  updatesSinceSnapshot : Nat
  bytesSinceSnapshot : Nat
  snapshotGeneration : Nat
  syncedSnapshotGeneration : Nat
  isBrandNew : Bool
  pendingSyncUpdates : List Blob
  storedUpdates : List Blob
  storedPending : List Blob
  storedSnapshot : Option Blob
  storedSyncedGeneration : Option Nat
  pullResults : List PullOutcome
  pushResults : List Bool
  warned : List MethodName
deriving DecidableEq

instance : Inhabited St :=
  ⟨{ doc := [], updatesSinceSnapshot := 0, bytesSinceSnapshot := 0,
     snapshotGeneration := 0, syncedSnapshotGeneration := 0,
     isBrandNew := false, pendingSyncUpdates := [], storedUpdates := [],
     storedPending := [], storedSnapshot := none,
     storedSyncedGeneration := none, pullResults := [], pushResults := [],
     warned := [] }⟩

/-- Consume the next `sync.pull` outcome; an exhausted oracle resolves with
`null`. -/
def nextPull (s : St) : PullOutcome × St :=
  match s.pullResults with
  | [] => (PullOutcome.ok none, s)
  | r :: rest => (r, { s with pullResults := rest })

/-- Consume the next `sync.push` outcome; an exhausted oracle resolves. -/
def nextPush (s : St) : Bool × St :=
  match s.pushResults with
  | [] => (true, s)
  | r :: rest => (r, { s with pushResults := rest })

/-- `WiserRuntime.warnMissingStorageMethod`: log once per missing method. -/
def warnMissingStorageMethod (s : St) (m : MethodName) : St × List Ev :=
  if m ∈ s.warned then (s, [])
  else ({ s with warned := s.warned ++ [m] }, [Ev.warnMissing m])

/-- `WiserRuntime.setPendingSyncState`: replace the in-memory pending list
and persist it (`clearPendingSync` / `markPendingSync`, with warn-once
fallbacks). -/
def setPendingSyncState (cfg : Config) (updates : List Blob) (s : St) :
    St × List Ev :=
  let s := { s with pendingSyncUpdates := updates }
  if updates.isEmpty then
    if cfg.hasClearPendingSync then
      ({ s with storedPending := [] }, [Ev.clearPendingSync])
    else if cfg.hasMarkPendingSync then
      ({ s with storedPending := [] }, [Ev.markPendingSync []])
    else
      warnMissingStorageMethod s MethodName.clearPendingSyncM
  else
    if cfg.hasMarkPendingSync then
      ({ s with storedPending := updates }, [Ev.markPendingSync updates])
    else
      warnMissingStorageMethod s MethodName.markPendingSyncM

/-- `WiserRuntime.storeSnapshot`: write the snapshot record, bump
`snapshotGeneration`, optionally reset the counters, and either mark the new
generation synced or clamp `syncedSnapshotGeneration` down to it. -/
def storeSnapshot (cfg : Config) (snapshot : Blob)
    (markSynced resetCounters : Bool) (s : St) : St × List Ev :=
  let (s, t1) :=
    if cfg.hasSetSnapshot then
      ({ s with storedSnapshot := some snapshot }, [Ev.setSnapshot snapshot])
    else
      warnMissingStorageMethod s MethodName.setSnapshotM
  let s := { s with snapshotGeneration := s.snapshotGeneration + 1 }
  let s :=
    if resetCounters then
      { s with updatesSinceSnapshot := 0, bytesSinceSnapshot := 0 }
    else s
  if markSynced then
    let s := { s with syncedSnapshotGeneration := s.snapshotGeneration }
    let (s, t2) :=
      if cfg.hasMarkSnapshotSynced then
        ({ s with storedSyncedGeneration := some s.syncedSnapshotGeneration },
          [Ev.markSnapshotSynced s.syncedSnapshotGeneration])
      else
        warnMissingStorageMethod s MethodName.markSnapshotSyncedM
    (s, t1 ++ t2)
  else
    let s :=
      if s.snapshotGeneration < s.syncedSnapshotGeneration then
        { s with syncedSnapshotGeneration := s.snapshotGeneration }
      else s
    (s, t1)

/-- `WiserRuntime.maybeSnapshot`: consult `policies.snapshotEvery` and store
a full-state snapshot when either counter has reached its threshold. -/
def maybeSnapshot (cfg : Config) (s : St) : St × List Ev :=
  match cfg.policies with
  | none => (s, [])
  | some p =>
    match p.snapshotEvery with
    | none => (s, [])
    | some se =>
      let shouldSnapshot : Bool :=
        (match se.updates with
         | some n => decide (n ≤ s.updatesSinceSnapshot)
         | none => false) ||
        (match se.bytes with
         | some m => decide (m ≤ s.bytesSinceSnapshot)
         | none => false)
      if shouldSnapshot then
        storeSnapshot cfg (cfg.encode (encodeStateAsUpdate s.doc)) false true s
      else (s, [])

/-- `WiserRuntime.persistUpdate`: append to the update log, optionally mark
pending, bump the counters, then `maybeSnapshot`. -/
def persistUpdate (cfg : Config) (update : Blob) (markPending : Bool)
    (s : St) : St × List Ev :=
  let s := { s with storedUpdates := s.storedUpdates ++ [update] }
  let t0 := [Ev.appendUpdate update]
  let (s, t1) :=
    if markPending then
      setPendingSyncState cfg (s.pendingSyncUpdates ++ [update]) s
    else (s, [])
  let s :=
    { s with
      updatesSinceSnapshot := s.updatesSinceSnapshot + 1
      bytesSinceSnapshot := s.bytesSinceSnapshot + update.length }
  let (s, t2) := maybeSnapshot cfg s
  (s, t0 ++ t1 ++ t2)

/-- `WiserRuntime.pushWithEvents`: emit the start event, call `sync.push`,
and emit the success or error event (an error rejects). -/
def pushWithEvents (cfg : Config) (update : Blob) (isSnapshot : Bool)
    (s : St) : St × List Ev × Bool :=
  if cfg.hasSync then
    let t0 := [Ev.emit Dir.push Phase.start (some isSnapshot) none,
               Ev.pushCall update isSnapshot]
    let (ok, s) := nextPush s
    if ok then
      (s, t0 ++ [Ev.emit Dir.push Phase.success (some isSnapshot) none], true)
    else
      (s, t0 ++ [Ev.emit Dir.push Phase.error (some isSnapshot) none], false)
  else (s, [], true)

/-- `WiserRuntime.fetchAndApplyFromSync`.  `handlerRegistered` says whether
the CRDT update hook is already attached (it is not during the hydration
pull of `createManagedDoc`); when it is, applying the pulled bytes fires the
hook with origin `SYNC`, whose effect is `persistUpdate` without marking
pending. -/
def fetchAndApplyFromSync (cfg : Config) (handlerRegistered : Bool)
    (s : St) : St × List Ev × Bool :=
  if cfg.hasSync then
    let shouldRequestSnapshot : Bool :=
      s.isBrandNew &&
        (((cfg.policies.bind Policies.snapshotSync).bind
            SnapshotSyncPolicy.requestOnNewDocument).getD true)
    let stateVector : Option Blob :=
      if shouldRequestSnapshot then none else some (encodeStateVector s.doc)
    let t0 := [Ev.emit Dir.pull Phase.start none (some shouldRequestSnapshot),
               Ev.pullCall stateVector shouldRequestSnapshot]
    let (outcome, s) := nextPull s
    match outcome with
    | PullOutcome.fail =>
      (s, t0 ++ [Ev.emit Dir.pull Phase.error none (some shouldRequestSnapshot)],
        false)
    | PullOutcome.ok result =>
      let s := { s with isBrandNew := false }
      match result with
      | none =>
        (s, t0 ++
          [Ev.emit Dir.pull Phase.success none (some shouldRequestSnapshot)],
          true)
      | some r =>
        if r.isEmpty then
          (s, t0 ++
            [Ev.emit Dir.pull Phase.success none (some shouldRequestSnapshot)],
            true)
        else
          let decoded := cfg.decode r
          let s := { s with doc := applyUpdate s.doc decoded }
          let (s, t1) :=
            if handlerRegistered then
              persistUpdate cfg (cfg.encode decoded) false s
            else (s, [])
          let snapshot := cfg.encode (encodeStateAsUpdate s.doc)
          let (s, t2) := storeSnapshot cfg snapshot true true s
          (s, t0 ++ t1 ++ t2 ++
            [Ev.emit Dir.pull Phase.success none (some shouldRequestSnapshot)],
            true)
  else (s, [], true)

/-- The second half of `WiserRuntime.syncSnapshotIfNeeded` (from the
`hasUnsyncedSnapshot` check on): push the current snapshot when the
generation has not been synced, unless `policies.snapshotSync.send = false`
and some snapshot generation was already synced; on push success advance
`syncedSnapshotGeneration` and mark it in storage. -/
def snapshotPushPhase (cfg : Config) (snapshotPayload : Option Blob)
    (s : St) : St × List Ev × Bool :=
  if s.syncedSnapshotGeneration < s.snapshotGeneration then
    let sendPolicy :=
      (cfg.policies.bind Policies.snapshotSync).bind SnapshotSyncPolicy.send
    if sendPolicy = some false ∧ 0 < s.syncedSnapshotGeneration then
      (s, [], true)
    else
      let payload := snapshotPayload.getD (cfg.encode (encodeStateAsUpdate s.doc))
      let (s, t2, ok) := pushWithEvents cfg payload true s
      if ok then
        let s := { s with syncedSnapshotGeneration := s.snapshotGeneration }
        let (s, t3) :=
          if cfg.hasMarkSnapshotSynced then
            ({ s with storedSyncedGeneration := some s.syncedSnapshotGeneration },
              [Ev.markSnapshotSynced s.syncedSnapshotGeneration])
          else
            warnMissingStorageMethod s MethodName.markSnapshotSyncedM
        (s, t2 ++ t3, true)
      else (s, t2, false)
  else (s, [], true)

/-- `WiserRuntime.syncSnapshotIfNeeded`: take a first local snapshot when the
generation is 0, then run `snapshotPushPhase`. -/
def syncSnapshotIfNeeded (cfg : Config) (s : St) : St × List Ev × Bool :=
  if cfg.hasSync then
    let (s, t1, snapshotPayload) :=
      if s.snapshotGeneration = 0 then
        let p := cfg.encode (encodeStateAsUpdate s.doc)
        let (s, t) := storeSnapshot cfg p false true s
        (s, t, some p)
      else (s, [], (none : Option Blob))
    let (s, t2, ok) := snapshotPushPhase cfg snapshotPayload s
    (s, t1 ++ t2, ok)
  else (s, [], true)

/-- The `shouldPullFirst` check and conditional pull opening
`syncOutgoingUpdate` (policy `pullBeforePush`, default true), factored out so
theorems can hypothesize on its outcome. -/
def pullPhase (cfg : Config) (s : St) : St × List Ev × Bool :=
  if (cfg.policies.bind Policies.pullBeforePush) ≠ some false then
    fetchAndApplyFromSync cfg true s
  else (s, [], true)

/-- `WiserRuntime.syncOutgoingUpdate`: pull first (unless the policy forbids
it), run the snapshot handshake, push the update, and on success drop the
head of the pending-sync list and persist the shrunk list. -/
def syncOutgoingUpdate (cfg : Config) (update : Blob) (s : St) :
    St × List Ev × Bool :=
  if cfg.hasSync then
    let (s, t1, ok1) := pullPhase cfg s
    if ok1 then
      let (s, t2, ok2) := syncSnapshotIfNeeded cfg s
      if ok2 then
        let (s, t3, ok3) := pushWithEvents cfg update false s
        if ok3 then
          match s.pendingSyncUpdates with
          | [] => (s, t1 ++ t2 ++ t3, true)
          | _ :: remaining =>
            let (s, t4) := setPendingSyncState cfg remaining s
            (s, t1 ++ t2 ++ t3 ++ t4, true)
        else (s, t1 ++ t2 ++ t3, false)
      else (s, t1 ++ t2, false)
    else (s, t1, false)
  else (s, [], true)

/-- `WiserRuntime.publishRealtime`: publish to the realtime adapter when one
is configured. -/
def publishRealtime (cfg : Config) (update : Blob) (s : St) :
    St × List Ev × Bool :=
  if cfg.hasRealtime then (s, [Ev.publish update], true)
  else (s, [], true)

/-- The CRDT update hook registered in `createManagedDoc`, together with the
task it enqueues on the per-document serializer (run inline, see the header).
`STORAGE` updates are ignored; `SYNC` / `REALTIME` updates are persisted
without marking pending; every other origin is persisted with marking, then
pushed (when sync is configured) and published (when realtime is). -/
def updateHandler (cfg : Config) (origin : Origin) (update : Blob) (s : St) :
    St × List Ev × Bool :=
  match origin with
  | Origin.storage => (s, [], true)
  | Origin.sync =>
    let (s, t) := persistUpdate cfg (cfg.encode update) false s
    (s, t, true)
  | Origin.realtime =>
    let (s, t) := persistUpdate cfg (cfg.encode update) false s
    (s, t, true)
  | Origin.other _ =>
    let encoded := cfg.encode update
    let (s, t1) := persistUpdate cfg encoded true s
    if cfg.hasSync then
      let (s, t2, ok2) := syncOutgoingUpdate cfg encoded s
      if ok2 then
        let (s, t3, ok3) := publishRealtime cfg encoded s
        (s, t1 ++ t2 ++ t3, ok3)
      else (s, t1 ++ t2, false)
    else
      if cfg.hasRealtime then
        let (s, t2, ok2) := publishRealtime cfg encoded s
        (s, t1 ++ t2, ok2)
      else (s, t1, true)

/-- A local mutation through `WiserDocumentHandle.mutate`: the transaction
applies the update to the document and the update hook fires with the
caller's (non-private) origin. -/
def localMutation (cfg : Config) (update : Blob) (s : St) :
    St × List Ev × Bool :=
  let s := { s with doc := applyUpdate s.doc update }
  updateHandler cfg (Origin.other 0) update s

/-- The hydration steps of `createManagedDoc` up to the initial pull:
replay the assembled stored document into the CRDT with origin `STORAGE`
and derive the generations, the brand-new flag and the pending backlog. -/
def hydrateState (cfg : Config) (stored : Option StoredDoc)
    (pulls : List PullOutcome) (pushes : List Bool) : St :=
  let doc1 : DocT :=
      match stored with
      | some st =>
        match st.snapshot with
        | some snap => applyUpdate [] (cfg.decode snap)
        | none => []
      | none => []
    let doc2 : DocT :=
      match stored with
      | some st => st.updates.foldl (fun d u => applyUpdate d (cfg.decode u)) doc1
      | none => doc1
    let pendingSyncFromStorage : List Blob :=
      match stored with
      | some st => st.pendingSync
      | none => []
    let snapshotGeneration : Nat :=
      match stored with
      | some st => st.snapshotGeneration.getD (if st.snapshot.isSome then 1 else 0)
      | none => 0
    let syncedSnapshotGeneration : Nat :=
      match stored with
      | some st => st.syncedSnapshotGeneration.getD 0
      | none => 0
    let isBrandNew : Bool :=
      match stored with
      | some st =>
        st.snapshot.isNone && st.updates.isEmpty && pendingSyncFromStorage.isEmpty
      | none => true
    let s : St :=
      { doc := doc2
        updatesSinceSnapshot := 0
        bytesSinceSnapshot := 0
        snapshotGeneration := snapshotGeneration
        syncedSnapshotGeneration := syncedSnapshotGeneration
        isBrandNew := isBrandNew
        pendingSyncUpdates := pendingSyncFromStorage
        storedUpdates :=
          match stored with
          | some st => st.updates
          | none => []
        storedPending := pendingSyncFromStorage
        storedSnapshot :=
          match stored with
          | some st => st.snapshot
          | none => none
        storedSyncedGeneration :=
          match stored with
          | some st => st.syncedSnapshotGeneration
          | none => none
        pullResults := pulls
        pushResults := pushes
        warned := [] }
    s

/-- `WiserRuntime.createManagedDoc` (the document-hydration path of
`getDocument`): assemble the stored document, build the hydrated state,
run the initial pull, and replay the pending backlog through the
serializer.  The completion flag is `false` when the initial pull rejects,
in which case the promise returned by `getDocument` rejects. -/
def createManagedDoc (cfg : Config) (a : Adapter)
    (pulls : List PullOutcome) (pushes : List Bool) :
    Except Unit (St × List Ev × Bool) :=
  match (assembleStoredDoc a).1 with
  | Except.error e => Except.error e
  | Except.ok stored =>
    let s := hydrateState cfg stored pulls pushes
    let (s, t1, ok1) := fetchAndApplyFromSync cfg false s
    if ok1 then
      if !s.pendingSyncUpdates.isEmpty && cfg.hasSync then
        let pendingQueue := s.pendingSyncUpdates
        let (s, t2) :=
          pendingQueue.foldl
            (fun (acc : St × List Ev) u =>
              let (s', t', _) := syncOutgoingUpdate cfg u acc.1
              (s', acc.2 ++ t'))
            (s, [])
        Except.ok (s, t1 ++ t2, true)
      else Except.ok (s, t1, true)
    else Except.ok (s, t1, false)

/-- Extract the hydrated state (for concrete counterexample runs). -/
def hydratedState (r : Except Unit (St × List Ev × Bool)) : St :=
  match r with
  | Except.ok (s, _, _) => s
  | Except.error _ => default

/-- Whether the promise returned by `getDocument` resolves. -/
def openResolves (r : Except Unit (St × List Ev × Bool)) : Bool :=
  match r with
  | Except.ok (_, _, ok) => ok
  | Except.error _ => false

/-- Extract the hydration trace (for concrete counterexample runs). -/
def openTrace (r : Except Unit (St × List Ev × Bool)) : List Ev :=
  match r with
  | Except.ok (_, tr, _) => tr
  | Except.error _ => []

/-- Classifier: a `sync.push` invocation. -/
def Ev.isPushCall : Ev → Bool
  | Ev.pushCall _ _ => true
  | _ => false

/-- Classifier: a `sync.push` invocation with `isSnapshot = true`. -/
def Ev.isSnapshotPushCall : Ev → Bool
  | Ev.pushCall _ true => true
  | _ => false

/-- Classifier: a `realtime.publish` invocation. -/
def Ev.isPublish : Ev → Bool
  | Ev.publish _ => true
  | _ => false

/-- Classifier: a write to the persisted pending-sync list
(`markPendingSync` or `clearPendingSync`). -/
def Ev.isPendingWrite : Ev → Bool
  | Ev.markPendingSync _ => true
  | Ev.clearPendingSync => true
  | _ => false

/-- Classifier: a `storage.setSnapshot` call. -/
def Ev.isSetSnapshot : Ev → Bool
  | Ev.setSnapshot _ => true
  | _ => false

/-- Classifier: an emitted pull-error sync event. -/
def Ev.isPullErrorEmit : Ev → Bool
  | Ev.emit Dir.pull Phase.error _ _ => true
  | _ => false

/-- Classifier: an emitted incremental (non-snapshot) push-error sync event. -/
def Ev.isIncrementalPushErrorEmit : Ev → Bool
  | Ev.emit Dir.push Phase.error (some false) _ => true
  | _ => false

/-- A trace that neither pushes, publishes, nor writes the pending list. -/
def noForwarding (tr : List Ev) : Bool :=
  tr.all fun e => !e.isPushCall && !e.isPublish && !e.isPendingWrite

/-- The generation invariant of the spec:
`synced_snapshot_generation ≤ snapshot_generation`. -/
def Inv (s : St) : Prop :=
  s.syncedSnapshotGeneration ≤ s.snapshotGeneration

/-- Consistency of the metadata a `StorageAdapter` hands back, under the
defaulting `createManagedDoc` applies
(`snapshotGeneration ?? (snapshot ? 1 : 0)` and
`syncedSnapshotGeneration ?? 0`). -/
def storedMetaConsistent (st : StoredDoc) : Prop :=
  st.syncedSnapshotGeneration.getD 0 ≤
    st.snapshotGeneration.getD (if st.snapshot.isSome then 1 else 0)

/-- A fresh brand-new in-memory state with the given pull / push oracles
(what hydration of an unknown document produces, before the initial pull). -/
def mkSt (pulls : List PullOutcome) (pushes : List Bool) : St :=
  { doc := [], updatesSinceSnapshot := 0, bytesSinceSnapshot := 0,
    snapshotGeneration := 0, syncedSnapshotGeneration := 0,
    isBrandNew := true, pendingSyncUpdates := [], storedUpdates := [],
    storedPending := [], storedSnapshot := none,
    storedSyncedGeneration := none, pullResults := pulls,
    pushResults := pushes, warned := [] }

/-- A configuration with a sync adapter, a realtime adapter, no codec,
default policies, and a fully featured storage adapter. -/
def fullCfg : Config :=
  { hasSync := true, hasRealtime := true, codec := none, policies := none,
    hasSetSnapshot := true, hasMarkPendingSync := true,
    hasClearPendingSync := true, hasMarkSnapshotSynced := true }

/-- A configuration with no sync and no realtime adapter. -/
def noSyncCfg : Config :=
  { hasSync := false, hasRealtime := false, codec := none, policies := none,
    hasSetSnapshot := true, hasMarkPendingSync := true,
    hasClearPendingSync := true, hasMarkSnapshotSynced := true }

/-- The configuration of spec scenario 3: `snapshotSync.send = false`,
`snapshotEvery.updates = 1`, sync configured, no realtime. -/
def c8Cfg : Config :=
  { hasSync := true, hasRealtime := false, codec := none,
    policies := some
      { snapshotEvery := some { updates := some 1, bytes := none },
        pullBeforePush := none,
        snapshotSync := some { send := some false, requestOnNewDocument := none } },
    hasSetSnapshot := true, hasMarkPendingSync := true,
    hasClearPendingSync := true, hasMarkSnapshotSynced := true }

/-- Spec scenario 3 executed on the model: hydration pull of a brand-new
document (resolving `null`), then two local mutations, all pushes
succeeding.  Returns the final state and the full trace. -/
def c8Run : St × List Ev :=
  let (s1, t1, _) :=
    fetchAndApplyFromSync c8Cfg false
      (mkSt [PullOutcome.ok none, PullOutcome.ok none, PullOutcome.ok none]
        [true, true, true])
  let (s2, t2, _) := localMutation c8Cfg [1] s1
  let (s3, t3, _) := localMutation c8Cfg [2] s2
  (s3, t1 ++ t2 ++ t3)

/-- An adapter whose snapshot record carries `syncedSnapshotGeneration = 2`
but no snapshot and no `snapshotGeneration`. -/
def c5Adapter : Adapter :=
  ⟨some (some ⟨none, none, some 2⟩), some (some []), some (some [])⟩

/-- An adapter whose `getSnapshot` returns `null` while its update log is
non-empty. -/
def c7Adapter : Adapter :=
  ⟨some none, some (some [[1]]), some (some [])⟩

/-- An adapter storing a snapshot blob with an explicit
`snapshotGeneration = 0`. -/
def c10Adapter : Adapter :=
  ⟨some (some ⟨some [5], some 0, none⟩), some (some []), some (some [])⟩

/-- An adapter that knows nothing about the document (brand-new). -/
def emptyAdapter : Adapter :=
  ⟨some none, some (some []), some none⟩

/-- `fullCfg` restricted to sync only (no realtime). -/
def syncOnlyCfg : Config :=
  { fullCfg with hasRealtime := false }

/-- A configuration with realtime only (no sync adapter). -/
def rtOnlyCfg : Config :=
  { fullCfg with hasSync := false }

/-- A sync-only configuration with `snapshotSync.requestOnNewDocument`
disabled. -/
def c6Cfg : Config :=
  { syncOnlyCfg with
    policies := some
      { snapshotEvery := none, pullBeforePush := none,
        snapshotSync := some
          { send := none, requestOnNewDocument := some false } } }

/-- A concrete state for exercising the outgoing-update sequence: one
pending update, a pull oracle resolving `null`, one push permitted. -/
def c3s0 : St :=
  { mkSt [PullOutcome.ok none] [true] with
    pendingSyncUpdates := [[9]], isBrandNew := false }

/-- The state after the pull phase of the concrete outgoing run. -/
def c3s1 : St := (pullPhase syncOnlyCfg c3s0).1

/-- The trace of the pull phase of the concrete outgoing run. -/
def c3t1 : List Ev := (pullPhase syncOnlyCfg c3s0).2.1

/-- The state after the snapshot handshake of the concrete outgoing run. -/
def c3s2 : St := (syncSnapshotIfNeeded syncOnlyCfg c3s1).1

/-- The trace of the snapshot handshake of the concrete outgoing run. -/
def c3t2 : List Ev := (syncSnapshotIfNeeded syncOnlyCfg c3s1).2.1

/-! ## Frame and preservation lemmas for the leaf operations -/

lemma warnMissing_fst (s : St) (m : MethodName) :
    (warnMissingStorageMethod s m).1 =
      { s with warned := (warnMissingStorageMethod s m).1.warned } := by
  simp only [warnMissingStorageMethod]
  repeat' split
  all_goals rfl

lemma noForwarding_warnMissing (s : St) (m : MethodName) :
    noForwarding (warnMissingStorageMethod s m).2 = true := by
  simp only [warnMissingStorageMethod]
  split
  all_goals simp [noForwarding, Ev.isPushCall, Ev.isPublish, Ev.isPendingWrite]

lemma setPendingSyncState_fst (cfg : Config) (l : List Blob) (s : St) :
    (setPendingSyncState cfg l s).1 =
      { s with
        pendingSyncUpdates := l
        storedPending := (setPendingSyncState cfg l s).1.storedPending
        warned := (setPendingSyncState cfg l s).1.warned } := by
  simp only [setPendingSyncState, warnMissingStorageMethod]
  repeat' split
  all_goals rfl

lemma storeSnapshot_fst (cfg : Config) (p : Blob) (ms rc : Bool) (s : St) :
    (storeSnapshot cfg p ms rc s).1 =
      { s with
        snapshotGeneration := s.snapshotGeneration + 1
        syncedSnapshotGeneration :=
          (storeSnapshot cfg p ms rc s).1.syncedSnapshotGeneration
        updatesSinceSnapshot := (storeSnapshot cfg p ms rc s).1.updatesSinceSnapshot
        bytesSinceSnapshot := (storeSnapshot cfg p ms rc s).1.bytesSinceSnapshot
        storedSnapshot := (storeSnapshot cfg p ms rc s).1.storedSnapshot
        storedSyncedGeneration :=
          (storeSnapshot cfg p ms rc s).1.storedSyncedGeneration
        warned := (storeSnapshot cfg p ms rc s).1.warned } := by
  simp only [storeSnapshot, warnMissingStorageMethod]
  repeat' split
  all_goals rfl

lemma storeSnapshot_inv (cfg : Config) (p : Blob) (ms rc : Bool) (s : St) :
    Inv (storeSnapshot cfg p ms rc s).1 := by
  simp only [Inv, storeSnapshot, warnMissingStorageMethod]
  repeat' split
  all_goals simp_all

lemma noForwarding_storeSnapshot (cfg : Config) (p : Blob) (ms rc : Bool)
    (s : St) : noForwarding (storeSnapshot cfg p ms rc s).2 = true := by
  simp only [storeSnapshot, warnMissingStorageMethod]
  repeat' split
  all_goals
    simp [noForwarding, Ev.isPushCall, Ev.isPublish, Ev.isPendingWrite]

lemma maybeSnapshot_fst (cfg : Config) (s : St) :
    (maybeSnapshot cfg s).1 =
      { s with
        snapshotGeneration := (maybeSnapshot cfg s).1.snapshotGeneration
        syncedSnapshotGeneration :=
          (maybeSnapshot cfg s).1.syncedSnapshotGeneration
        updatesSinceSnapshot := (maybeSnapshot cfg s).1.updatesSinceSnapshot
        bytesSinceSnapshot := (maybeSnapshot cfg s).1.bytesSinceSnapshot
        storedSnapshot := (maybeSnapshot cfg s).1.storedSnapshot
        storedSyncedGeneration := (maybeSnapshot cfg s).1.storedSyncedGeneration
        warned := (maybeSnapshot cfg s).1.warned } := by
  simp only [maybeSnapshot, storeSnapshot, warnMissingStorageMethod]
  repeat' split
  all_goals rfl

lemma maybeSnapshot_inv (cfg : Config) (s : St) (h : Inv s) :
    Inv (maybeSnapshot cfg s).1 := by
  simp only [maybeSnapshot]
  repeat' split
  any_goals exact h
  all_goals exact storeSnapshot_inv ..

lemma noForwarding_maybeSnapshot (cfg : Config) (s : St) :
    noForwarding (maybeSnapshot cfg s).2 = true := by
  simp only [maybeSnapshot]
  repeat' split
  any_goals rfl
  all_goals exact noForwarding_storeSnapshot ..


lemma persistUpdate_false_eq (cfg : Config) (u : Blob) (s : St) :
    persistUpdate cfg u false s =
      (let s1 : St := { s with storedUpdates := s.storedUpdates ++ [u] }
       let s2 : St :=
         { s1 with
           updatesSinceSnapshot := s1.updatesSinceSnapshot + 1
           bytesSinceSnapshot := s1.bytesSinceSnapshot + u.length }
       ((maybeSnapshot cfg s2).1,
         [Ev.appendUpdate u] ++ [] ++ (maybeSnapshot cfg s2).2)) := rfl

lemma persistUpdate_true_eq (cfg : Config) (u : Blob) (s : St) :
    persistUpdate cfg u true s =
      (let s1 : St := { s with storedUpdates := s.storedUpdates ++ [u] }
       let r := setPendingSyncState cfg (s1.pendingSyncUpdates ++ [u]) s1
       let s2 : St :=
         { r.1 with
           updatesSinceSnapshot := r.1.updatesSinceSnapshot + 1
           bytesSinceSnapshot := r.1.bytesSinceSnapshot + u.length }
       ((maybeSnapshot cfg s2).1,
         [Ev.appendUpdate u] ++ r.2 ++ (maybeSnapshot cfg s2).2)) := rfl

/-! Projection facts derived from the frame equations. -/

lemma ms_doc (cfg : Config) (s : St) :
    (maybeSnapshot cfg s).1.doc = s.doc := by
  rw [maybeSnapshot_fst]

lemma ms_isBrandNew (cfg : Config) (s : St) :
    (maybeSnapshot cfg s).1.isBrandNew = s.isBrandNew := by
  rw [maybeSnapshot_fst]

lemma ms_pending (cfg : Config) (s : St) :
    (maybeSnapshot cfg s).1.pendingSyncUpdates = s.pendingSyncUpdates := by
  rw [maybeSnapshot_fst]

lemma ms_storedUpdates (cfg : Config) (s : St) :
    (maybeSnapshot cfg s).1.storedUpdates = s.storedUpdates := by
  rw [maybeSnapshot_fst]

lemma ms_storedPending (cfg : Config) (s : St) :
    (maybeSnapshot cfg s).1.storedPending = s.storedPending := by
  rw [maybeSnapshot_fst]

lemma ms_pullResults (cfg : Config) (s : St) :
    (maybeSnapshot cfg s).1.pullResults = s.pullResults := by
  rw [maybeSnapshot_fst]

lemma ms_pushResults (cfg : Config) (s : St) :
    (maybeSnapshot cfg s).1.pushResults = s.pushResults := by
  rw [maybeSnapshot_fst]

lemma spss_pending (cfg : Config) (l : List Blob) (s : St) :
    (setPendingSyncState cfg l s).1.pendingSyncUpdates = l := by
  rw [setPendingSyncState_fst]

lemma spss_doc (cfg : Config) (l : List Blob) (s : St) :
    (setPendingSyncState cfg l s).1.doc = s.doc := by
  rw [setPendingSyncState_fst]

lemma spss_isBrandNew (cfg : Config) (l : List Blob) (s : St) :
    (setPendingSyncState cfg l s).1.isBrandNew = s.isBrandNew := by
  rw [setPendingSyncState_fst]

lemma spss_updatesSinceSnapshot (cfg : Config) (l : List Blob) (s : St) :
    (setPendingSyncState cfg l s).1.updatesSinceSnapshot =
      s.updatesSinceSnapshot := by
  rw [setPendingSyncState_fst]

lemma spss_bytesSinceSnapshot (cfg : Config) (l : List Blob) (s : St) :
    (setPendingSyncState cfg l s).1.bytesSinceSnapshot =
      s.bytesSinceSnapshot := by
  rw [setPendingSyncState_fst]

lemma spss_snapshotGeneration (cfg : Config) (l : List Blob) (s : St) :
    (setPendingSyncState cfg l s).1.snapshotGeneration =
      s.snapshotGeneration := by
  rw [setPendingSyncState_fst]

lemma spss_synced (cfg : Config) (l : List Blob) (s : St) :
    (setPendingSyncState cfg l s).1.syncedSnapshotGeneration =
      s.syncedSnapshotGeneration := by
  rw [setPendingSyncState_fst]

lemma spss_storedUpdates (cfg : Config) (l : List Blob) (s : St) :
    (setPendingSyncState cfg l s).1.storedUpdates = s.storedUpdates := by
  rw [setPendingSyncState_fst]

lemma spss_pullResults (cfg : Config) (l : List Blob) (s : St) :
    (setPendingSyncState cfg l s).1.pullResults = s.pullResults := by
  rw [setPendingSyncState_fst]

lemma spss_pushResults (cfg : Config) (l : List Blob) (s : St) :
    (setPendingSyncState cfg l s).1.pushResults = s.pushResults := by
  rw [setPendingSyncState_fst]

lemma ss_doc (cfg : Config) (p : Blob) (ms rc : Bool) (s : St) :
    (storeSnapshot cfg p ms rc s).1.doc = s.doc := by
  rw [storeSnapshot_fst]

lemma ss_isBrandNew (cfg : Config) (p : Blob) (ms rc : Bool) (s : St) :
    (storeSnapshot cfg p ms rc s).1.isBrandNew = s.isBrandNew := by
  rw [storeSnapshot_fst]

lemma ss_pending (cfg : Config) (p : Blob) (ms rc : Bool) (s : St) :
    (storeSnapshot cfg p ms rc s).1.pendingSyncUpdates =
      s.pendingSyncUpdates := by
  rw [storeSnapshot_fst]

lemma ss_storedUpdates (cfg : Config) (p : Blob) (ms rc : Bool) (s : St) :
    (storeSnapshot cfg p ms rc s).1.storedUpdates = s.storedUpdates := by
  rw [storeSnapshot_fst]

lemma ss_storedPending (cfg : Config) (p : Blob) (ms rc : Bool) (s : St) :
    (storeSnapshot cfg p ms rc s).1.storedPending = s.storedPending := by
  rw [storeSnapshot_fst]

lemma ss_pullResults (cfg : Config) (p : Blob) (ms rc : Bool) (s : St) :
    (storeSnapshot cfg p ms rc s).1.pullResults = s.pullResults := by
  rw [storeSnapshot_fst]

lemma ss_pushResults (cfg : Config) (p : Blob) (ms rc : Bool) (s : St) :
    (storeSnapshot cfg p ms rc s).1.pushResults = s.pushResults := by
  rw [storeSnapshot_fst]

lemma ss_snapshotGeneration (cfg : Config) (p : Blob) (ms rc : Bool) (s : St) :
    (storeSnapshot cfg p ms rc s).1.snapshotGeneration =
      s.snapshotGeneration + 1 := by
  rw [storeSnapshot_fst]

lemma ss_counters_reset (cfg : Config) (p : Blob) (ms : Bool) (s : St) :
    (storeSnapshot cfg p ms true s).1.updatesSinceSnapshot = 0 ∧
      (storeSnapshot cfg p ms true s).1.bytesSinceSnapshot = 0 := by
  simp only [storeSnapshot, warnMissingStorageMethod]
  repeat' split
  all_goals simp_all

lemma ss_setSnapshot_mem (cfg : Config) (p : Blob) (ms rc : Bool) (s : St)
    (h : cfg.hasSetSnapshot = true) :
    Ev.setSnapshot p ∈ (storeSnapshot cfg p ms rc s).2 := by
  simp only [storeSnapshot, warnMissingStorageMethod, h]
  repeat' split
  all_goals simp_all

lemma pu_pending_false (cfg : Config) (u : Blob) (s : St) :
    (persistUpdate cfg u false s).1.pendingSyncUpdates =
      s.pendingSyncUpdates := by
  rw [persistUpdate_false_eq]
  simp [ms_pending]

lemma pu_pending_true (cfg : Config) (u : Blob) (s : St) :
    (persistUpdate cfg u true s).1.pendingSyncUpdates =
      s.pendingSyncUpdates ++ [u] := by
  rw [persistUpdate_true_eq]
  simp [ms_pending, spss_pending]

lemma pu_storedPending_false (cfg : Config) (u : Blob) (s : St) :
    (persistUpdate cfg u false s).1.storedPending = s.storedPending := by
  rw [persistUpdate_false_eq]
  simp [ms_storedPending]

lemma pu_doc (cfg : Config) (u : Blob) (mp : Bool) (s : St) :
    (persistUpdate cfg u mp s).1.doc = s.doc := by
  cases mp
  · rw [persistUpdate_false_eq]; simp [ms_doc]
  · rw [persistUpdate_true_eq]; simp [ms_doc, spss_doc]

lemma pu_isBrandNew (cfg : Config) (u : Blob) (mp : Bool) (s : St) :
    (persistUpdate cfg u mp s).1.isBrandNew = s.isBrandNew := by
  cases mp
  · rw [persistUpdate_false_eq]; simp [ms_isBrandNew]
  · rw [persistUpdate_true_eq]; simp [ms_isBrandNew, spss_isBrandNew]

lemma pu_storedUpdates (cfg : Config) (u : Blob) (mp : Bool) (s : St) :
    (persistUpdate cfg u mp s).1.storedUpdates = s.storedUpdates ++ [u] := by
  cases mp
  · rw [persistUpdate_false_eq]; simp [ms_storedUpdates]
  · rw [persistUpdate_true_eq]; simp [ms_storedUpdates, spss_storedUpdates]

lemma pu_pullResults (cfg : Config) (u : Blob) (mp : Bool) (s : St) :
    (persistUpdate cfg u mp s).1.pullResults = s.pullResults := by
  cases mp
  · rw [persistUpdate_false_eq]; simp [ms_pullResults]
  · rw [persistUpdate_true_eq]; simp [ms_pullResults, spss_pullResults]

lemma pu_pushResults (cfg : Config) (u : Blob) (mp : Bool) (s : St) :
    (persistUpdate cfg u mp s).1.pushResults = s.pushResults := by
  cases mp
  · rw [persistUpdate_false_eq]; simp [ms_pushResults]
  · rw [persistUpdate_true_eq]; simp [ms_pushResults, spss_pushResults]

lemma pu_inv (cfg : Config) (u : Blob) (mp : Bool) (s : St) (h : Inv s) :
    Inv (persistUpdate cfg u mp s).1 := by
  cases mp
  · rw [persistUpdate_false_eq]
    apply maybeSnapshot_inv
    simpa [Inv] using h
  · rw [persistUpdate_true_eq]
    apply maybeSnapshot_inv
    simp only [Inv, spss_snapshotGeneration, spss_synced]
    exact h

lemma pu_head (cfg : Config) (u : Blob) (mp : Bool) (s : St) :
    (persistUpdate cfg u mp s).2.head? = some (Ev.appendUpdate u) := by
  cases mp
  · rw [persistUpdate_false_eq]; simp
  · rw [persistUpdate_true_eq]; simp

lemma noForwarding_append (t1 t2 : List Ev) :
    noForwarding (t1 ++ t2) = (noForwarding t1 && noForwarding t2) := by
  simp [noForwarding]

lemma noForwarding_pu_false (cfg : Config) (u : Blob) (s : St) :
    noForwarding (persistUpdate cfg u false s).2 = true := by
  rw [persistUpdate_false_eq]
  simp only [noForwarding_append, noForwarding_maybeSnapshot, Bool.and_true]
  simp [noForwarding, Ev.isPushCall, Ev.isPublish, Ev.isPendingWrite]

lemma pushWithEvents_fst (cfg : Config) (u : Blob) (b : Bool) (s : St) :
    (pushWithEvents cfg u b s).1 =
      { s with pushResults := (pushWithEvents cfg u b s).1.pushResults } := by
  match hr : s.pushResults with
  | [] =>
    simp only [pushWithEvents, nextPush, hr]
    split <;> rfl
  | r :: rest =>
    cases r <;> simp only [pushWithEvents, nextPush, hr] <;> split <;> rfl

lemma pushWithEvents_fail (cfg : Config) (u : Blob) (b : Bool) (s : St)
    (hSync : cfg.hasSync = true) (h : s.pushResults.head? = some false) :
    pushWithEvents cfg u b s =
      ({ s with pushResults := s.pushResults.tail },
        [Ev.emit Dir.push Phase.start (some b) none, Ev.pushCall u b,
         Ev.emit Dir.push Phase.error (some b) none], false) := by
  match hr : s.pushResults with
  | [] => rw [hr] at h; simp at h
  | r :: rest =>
    rw [hr] at h
    simp only [List.head?_cons, Option.some.injEq] at h
    subst h
    simp [pushWithEvents, nextPush, hSync, hr]

lemma pushWithEvents_ok (cfg : Config) (u : Blob) (b : Bool) (s : St)
    (hSync : cfg.hasSync = true)
    (h : s.pushResults.head? = some true ∨ s.pushResults = []) :
    pushWithEvents cfg u b s =
      ({ s with pushResults := s.pushResults.tail },
        [Ev.emit Dir.push Phase.start (some b) none, Ev.pushCall u b,
         Ev.emit Dir.push Phase.success (some b) none], true) := by
  match hr : s.pushResults with
  | [] =>
    simp [pushWithEvents, nextPush, hSync, hr]
    rw [← hr]
  | r :: rest =>
    rw [hr] at h
    rcases h with h | h
    · simp only [List.head?_cons, Option.some.injEq] at h
      subst h
      simp [pushWithEvents, nextPush, hSync, hr]
    · exact absurd h (by simp)

lemma pwe_doc (cfg : Config) (u : Blob) (b : Bool) (s : St) :
    (pushWithEvents cfg u b s).1.doc = s.doc := by
  rw [pushWithEvents_fst]

lemma pwe_pending (cfg : Config) (u : Blob) (b : Bool) (s : St) :
    (pushWithEvents cfg u b s).1.pendingSyncUpdates =
      s.pendingSyncUpdates := by
  rw [pushWithEvents_fst]

lemma pwe_storedPending (cfg : Config) (u : Blob) (b : Bool) (s : St) :
    (pushWithEvents cfg u b s).1.storedPending = s.storedPending := by
  rw [pushWithEvents_fst]

lemma pwe_storedUpdates (cfg : Config) (u : Blob) (b : Bool) (s : St) :
    (pushWithEvents cfg u b s).1.storedUpdates = s.storedUpdates := by
  rw [pushWithEvents_fst]

lemma pwe_snapshotGeneration (cfg : Config) (u : Blob) (b : Bool) (s : St) :
    (pushWithEvents cfg u b s).1.snapshotGeneration =
      s.snapshotGeneration := by
  rw [pushWithEvents_fst]

lemma pwe_synced (cfg : Config) (u : Blob) (b : Bool) (s : St) :
    (pushWithEvents cfg u b s).1.syncedSnapshotGeneration =
      s.syncedSnapshotGeneration := by
  rw [pushWithEvents_fst]

lemma pwe_isBrandNew (cfg : Config) (u : Blob) (b : Bool) (s : St) :
    (pushWithEvents cfg u b s).1.isBrandNew = s.isBrandNew := by
  rw [pushWithEvents_fst]

lemma fetch_frame (cfg : Config) (reg : Bool) (s : St) :
    (fetchAndApplyFromSync cfg reg s).1.pendingSyncUpdates =
        s.pendingSyncUpdates ∧
      (fetchAndApplyFromSync cfg reg s).1.storedPending = s.storedPending ∧
      (fetchAndApplyFromSync cfg reg s).1.pushResults = s.pushResults ∧
      (cfg.hasSync = true → (fetchAndApplyFromSync cfg reg s).2.2 = true →
        (fetchAndApplyFromSync cfg reg s).1.isBrandNew = false) ∧
      (Inv s → Inv (fetchAndApplyFromSync cfg reg s).1) := by
  cases hs : cfg.hasSync
  · simp [fetchAndApplyFromSync, hs]
  · match hp : s.pullResults with
    | [] =>
      simp [fetchAndApplyFromSync, nextPull, hs, hp, Inv]
    | PullOutcome.fail :: rest =>
      simp [fetchAndApplyFromSync, nextPull, hs, hp, Inv]
    | PullOutcome.ok none :: rest =>
      simp [fetchAndApplyFromSync, nextPull, hs, hp, Inv]
    | PullOutcome.ok (some rr) :: rest =>
      cases hempty : rr.isEmpty
      all_goals cases reg
      all_goals
        simp [fetchAndApplyFromSync, nextPull, hs, hp, hempty,
          ss_pending, ss_storedPending, ss_pushResults, ss_isBrandNew,
          pu_pending_false, pu_storedPending_false, pu_pushResults,
          pu_isBrandNew]
      all_goals
        first
        | (intro h; simpa [Inv] using h)
        | exact fun _ => storeSnapshot_inv ..

lemma pwe_updatesSince (cfg : Config) (u : Blob) (b : Bool) (s : St) :
    (pushWithEvents cfg u b s).1.updatesSinceSnapshot =
      s.updatesSinceSnapshot := by
  rw [pushWithEvents_fst]

lemma pwe_bytesSince (cfg : Config) (u : Blob) (b : Bool) (s : St) :
    (pushWithEvents cfg u b s).1.bytesSinceSnapshot =
      s.bytesSinceSnapshot := by
  rw [pushWithEvents_fst]

lemma pwe_storedSnapshot (cfg : Config) (u : Blob) (b : Bool) (s : St) :
    (pushWithEvents cfg u b s).1.storedSnapshot = s.storedSnapshot := by
  rw [pushWithEvents_fst]

lemma pwe_storedSyncedGeneration (cfg : Config) (u : Blob) (b : Bool) (s : St) :
    (pushWithEvents cfg u b s).1.storedSyncedGeneration =
      s.storedSyncedGeneration := by
  rw [pushWithEvents_fst]

lemma pwe_pullResults (cfg : Config) (u : Blob) (b : Bool) (s : St) :
    (pushWithEvents cfg u b s).1.pullResults = s.pullResults := by
  rw [pushWithEvents_fst]

lemma pwe_warned (cfg : Config) (u : Blob) (b : Bool) (s : St) :
    (pushWithEvents cfg u b s).1.warned = s.warned := by
  rw [pushWithEvents_fst]

lemma spp_fst (cfg : Config) (p : Option Blob) (s : St) :
    (snapshotPushPhase cfg p s).1 =
      { s with
        syncedSnapshotGeneration :=
          (snapshotPushPhase cfg p s).1.syncedSnapshotGeneration
        storedSyncedGeneration :=
          (snapshotPushPhase cfg p s).1.storedSyncedGeneration
        pushResults := (snapshotPushPhase cfg p s).1.pushResults
        warned := (snapshotPushPhase cfg p s).1.warned } := by
  simp only [snapshotPushPhase, warnMissingStorageMethod]
  repeat' split
  all_goals try rfl
  all_goals try (conv_lhs => rw [pushWithEvents_fst])
  all_goals
    simp [pwe_doc, pwe_pending, pwe_storedPending, pwe_storedUpdates,
      pwe_snapshotGeneration, pwe_isBrandNew, pwe_updatesSince, pwe_bytesSince,
      pwe_storedSnapshot, pwe_pullResults, pwe_warned, pwe_synced,
      pwe_storedSyncedGeneration]

lemma spp_doc (cfg : Config) (p : Option Blob) (s : St) :
    (snapshotPushPhase cfg p s).1.doc = s.doc := by
  rw [spp_fst]

lemma spp_isBrandNew (cfg : Config) (p : Option Blob) (s : St) :
    (snapshotPushPhase cfg p s).1.isBrandNew = s.isBrandNew := by
  rw [spp_fst]

lemma spp_pending (cfg : Config) (p : Option Blob) (s : St) :
    (snapshotPushPhase cfg p s).1.pendingSyncUpdates =
      s.pendingSyncUpdates := by
  rw [spp_fst]

lemma spp_storedPending (cfg : Config) (p : Option Blob) (s : St) :
    (snapshotPushPhase cfg p s).1.storedPending = s.storedPending := by
  rw [spp_fst]

lemma spp_storedUpdates (cfg : Config) (p : Option Blob) (s : St) :
    (snapshotPushPhase cfg p s).1.storedUpdates = s.storedUpdates := by
  rw [spp_fst]

lemma spp_pullResults (cfg : Config) (p : Option Blob) (s : St) :
    (snapshotPushPhase cfg p s).1.pullResults = s.pullResults := by
  rw [spp_fst]

lemma spp_gen (cfg : Config) (p : Option Blob) (s : St) :
    (snapshotPushPhase cfg p s).1.snapshotGeneration =
      s.snapshotGeneration := by
  rw [spp_fst]

lemma spp_inv (cfg : Config) (p : Option Blob) (s : St) (h : Inv s) :
    Inv (snapshotPushPhase cfg p s).1 := by
  simp only [snapshotPushPhase, warnMissingStorageMethod, Inv] at *
  repeat' split
  all_goals try assumption
  all_goals simp [pwe_synced, pwe_snapshotGeneration]
  all_goals exact h

lemma spp_suppressed (cfg : Config) (p : Option Blob) (s : St)
    (hpol : (cfg.policies.bind Policies.snapshotSync).bind
        SnapshotSyncPolicy.send = some false)
    (hsynced : 0 < s.syncedSnapshotGeneration) :
    snapshotPushPhase cfg p s = (s, [], true) := by
  simp only [snapshotPushPhase, hpol]
  split
  · simp [hsynced]
  · rfl

lemma pwe_all_no_setSnapshot (cfg : Config) (u : Blob) (b : Bool) (s : St) :
    ((pushWithEvents cfg u b s).2.1.all fun e => !e.isSetSnapshot) = true := by
  simp only [pushWithEvents, nextPush]
  repeat' split
  all_goals simp [Ev.isSetSnapshot]

lemma pwe_all_no_publish_pendingWrite (cfg : Config) (u : Blob) (b : Bool)
    (s : St) :
    ((pushWithEvents cfg u b s).2.1.all fun e =>
        !e.isPublish && !e.isPendingWrite) = true := by
  simp only [pushWithEvents, nextPush]
  repeat' split
  all_goals simp [Ev.isPublish, Ev.isPendingWrite]

lemma pwe_countP_snapshotPush (cfg : Config) (u : Blob) (s : St)
    (hs : cfg.hasSync = true) :
    ((pushWithEvents cfg u true s).2.1.countP fun e =>
        e.isSnapshotPushCall) = 1 := by
  simp only [pushWithEvents, nextPush, hs]
  repeat' split
  all_goals
    simp_all [List.countP_cons, List.countP_nil, Ev.isSnapshotPushCall]

lemma pwe_no_setSnapshot_mem (cfg : Config) (u : Blob) (b : Bool) (s : St) :
    ∀ e ∈ (pushWithEvents cfg u b s).2.1, e.isSetSnapshot = false := by
  have h := pwe_all_no_setSnapshot cfg u b s
  simp only [List.all_eq_true, Bool.not_eq_eq_eq_not, Bool.not_true] at h
  exact h

lemma spp_no_setSnapshot (cfg : Config) (p : Option Blob) (s : St) :
    ((snapshotPushPhase cfg p s).2.1.all fun e => !e.isSetSnapshot) = true := by
  simp only [snapshotPushPhase, warnMissingStorageMethod]
  repeat' split
  all_goals try simp [List.all_append, Ev.isSetSnapshot]
  all_goals
    intro x hx
    have hh := pwe_no_setSnapshot_mem _ _ _ _ x hx
    simpa [Ev.isSetSnapshot] using hh

lemma spp_first_send (cfg : Config) (p : Option Blob) (s : St)
    (hs : cfg.hasSync = true) (h0 : s.syncedSnapshotGeneration = 0)
    (hlt : 0 < s.snapshotGeneration) :
    ((snapshotPushPhase cfg p s).2.1.countP fun e =>
        e.isSnapshotPushCall) = 1 := by
  simp only [snapshotPushPhase, warnMissingStorageMethod, h0, hlt,
    lt_irrefl, and_false, if_false]
  repeat' split
  all_goals
    simp_all [List.countP_append, List.countP_cons, List.countP_nil,
      Ev.isSnapshotPushCall]
  all_goals exact pwe_countP_snapshotPush _ _ _ hs

lemma ss_synced_zero (cfg : Config) (p : Blob) (rc : Bool) (s : St)
    (h0 : s.syncedSnapshotGeneration = 0) :
    (storeSnapshot cfg p false rc s).1.syncedSnapshotGeneration = 0 := by
  simp only [storeSnapshot, warnMissingStorageMethod]
  repeat' split
  all_goals simp_all

lemma noForwarding_no_snapPush (tr : List Ev) (h : noForwarding tr = true) :
    (tr.countP fun e => e.isSnapshotPushCall) = 0 := by
  rw [List.countP_eq_zero]
  simp only [noForwarding, List.all_eq_true] at h
  intro e he
  have := h e he
  cases e <;> simp_all [Ev.isPushCall, Ev.isSnapshotPushCall]

lemma sns_frame (cfg : Config) (s : St) :
    (syncSnapshotIfNeeded cfg s).1.doc = s.doc ∧
      (syncSnapshotIfNeeded cfg s).1.isBrandNew = s.isBrandNew ∧
      (syncSnapshotIfNeeded cfg s).1.pendingSyncUpdates =
        s.pendingSyncUpdates ∧
      (syncSnapshotIfNeeded cfg s).1.storedPending = s.storedPending ∧
      (syncSnapshotIfNeeded cfg s).1.storedUpdates = s.storedUpdates ∧
      (syncSnapshotIfNeeded cfg s).1.pullResults = s.pullResults ∧
      (Inv s → Inv (syncSnapshotIfNeeded cfg s).1) := by
  cases hs : cfg.hasSync
  · simp [syncSnapshotIfNeeded, hs, Inv]
  · simp only [syncSnapshotIfNeeded, hs, if_true]
    simp only [spp_doc, spp_isBrandNew, spp_pending, spp_storedPending,
      spp_storedUpdates, spp_pullResults]
    refine ⟨?_, ?_, ?_, ?_, ?_, ?_, fun h => spp_inv _ _ _ ?_⟩
    all_goals split
    all_goals try rfl
    all_goals
      first
      | exact ss_doc ..
      | exact ss_isBrandNew ..
      | exact ss_pending ..
      | exact ss_storedPending ..
      | exact ss_storedUpdates ..
      | exact ss_pullResults ..
      | exact storeSnapshot_inv ..
      | exact h

lemma sns_gen_stable (cfg : Config) (s : St)
    (h : s.snapshotGeneration ≠ 0) :
    (syncSnapshotIfNeeded cfg s).1.snapshotGeneration =
        s.snapshotGeneration ∧
      ((syncSnapshotIfNeeded cfg s).2.1.all fun e => !e.isSetSnapshot) =
        true := by
  cases hs : cfg.hasSync
  · simp [syncSnapshotIfNeeded, hs]
  · simp only [syncSnapshotIfNeeded, hs, if_true, if_neg h]
    constructor
    · exact spp_gen ..
    · simpa [List.all_append] using spp_no_setSnapshot cfg none s

lemma sns_suppressed (cfg : Config) (s : St)
    (hpol : (cfg.policies.bind Policies.snapshotSync).bind
        SnapshotSyncPolicy.send = some false)
    (hsynced : 0 < s.syncedSnapshotGeneration) :
    ((syncSnapshotIfNeeded cfg s).2.1.all fun e => !e.isPushCall) = true ∧
      (syncSnapshotIfNeeded cfg s).2.2 = true := by
  cases hs : cfg.hasSync
  · simp [syncSnapshotIfNeeded, hs]
  · simp only [syncSnapshotIfNeeded, hs, if_true]
    split
    · rename_i hgen
      have h2 : ¬ ((storeSnapshot cfg (cfg.encode (encodeStateAsUpdate s.doc))
            false true s).1.syncedSnapshotGeneration <
          (storeSnapshot cfg (cfg.encode (encodeStateAsUpdate s.doc))
            false true s).1.snapshotGeneration) := by
        rw [ss_snapshotGeneration, hgen]
        simp only [storeSnapshot, warnMissingStorageMethod, hgen]
        repeat' split
        all_goals simp_all
        all_goals omega
      rw [show snapshotPushPhase cfg
          (some (cfg.encode (encodeStateAsUpdate s.doc)))
          (storeSnapshot cfg (cfg.encode (encodeStateAsUpdate s.doc))
            false true s).1 =
          ((storeSnapshot cfg (cfg.encode (encodeStateAsUpdate s.doc))
            false true s).1, [], true) from by
        simp only [snapshotPushPhase, if_neg h2]]
      constructor
      · have hnf := noForwarding_storeSnapshot cfg
          (cfg.encode (encodeStateAsUpdate s.doc)) false true s
        simp only [noForwarding, List.all_eq_true] at hnf
        simp only [List.append_nil, List.all_eq_true]
        intro e he
        have := hnf e he
        simp_all
      · rfl
    · rw [spp_suppressed cfg none s hpol hsynced]
      simp

lemma sns_first_send (cfg : Config) (s : St) (hs : cfg.hasSync = true)
    (h0 : s.syncedSnapshotGeneration = 0) :
    ((syncSnapshotIfNeeded cfg s).2.1.countP fun e =>
        e.isSnapshotPushCall) = 1 := by
  simp only [syncSnapshotIfNeeded, hs, if_true]
  split
  · rename_i hgen
    rw [List.countP_append]
    rw [noForwarding_no_snapPush _ (noForwarding_storeSnapshot ..)]
    rw [spp_first_send _ _ _ hs (ss_synced_zero _ _ _ _ h0)
      (by rw [ss_snapshotGeneration]; omega)]
  · rename_i hgen
    simp only [List.nil_append]
    exact spp_first_send _ _ _ hs h0 (by omega)

lemma pp_frame (cfg : Config) (s : St) :
    (pullPhase cfg s).1.pendingSyncUpdates = s.pendingSyncUpdates ∧
      (pullPhase cfg s).1.storedPending = s.storedPending ∧
      (pullPhase cfg s).1.pushResults = s.pushResults ∧
      (Inv s → Inv (pullPhase cfg s).1) := by
  unfold pullPhase
  split
  · exact ⟨(fetch_frame ..).1, (fetch_frame ..).2.1, (fetch_frame ..).2.2.1,
      (fetch_frame ..).2.2.2.2⟩
  · exact ⟨rfl, rfl, rfl, id⟩

lemma pr_fst (cfg : Config) (u : Blob) (s : St) :
    (publishRealtime cfg u s).1 = s := by
  unfold publishRealtime
  split <;> rfl

lemma pr_ok (cfg : Config) (u : Blob) (s : St) :
    (publishRealtime cfg u s).2.2 = true := by
  unfold publishRealtime
  split <;> rfl

lemma pr_publish_mem (cfg : Config) (u : Blob) (s : St)
    (hr : cfg.hasRealtime = true) :
    Ev.publish u ∈ (publishRealtime cfg u s).2.1 := by
  simp [publishRealtime, hr]

lemma pwe_pushCall_mem (cfg : Config) (u : Blob) (b : Bool) (s : St)
    (hs : cfg.hasSync = true) :
    Ev.pushCall u b ∈ (pushWithEvents cfg u b s).2.1 := by
  simp only [pushWithEvents, nextPush, hs]
  repeat' split
  all_goals simp_all

lemma sou_inv (cfg : Config) (u : Blob) (s : St) (h : Inv s) :
    Inv (syncOutgoingUpdate cfg u s).1 := by
  cases hs : cfg.hasSync
  · simp only [syncOutgoingUpdate, hs]
    simpa using h
  · rcases hpp : pullPhase cfg s with ⟨s1, t1, ok1⟩
    have hinv1 : Inv s1 := by
      have hh := (pp_frame cfg s).2.2.2 h
      rwa [hpp] at hh
    simp only [syncOutgoingUpdate, hs, if_true, hpp]
    cases ok1
    · simpa using hinv1
    · rcases hsns : syncSnapshotIfNeeded cfg s1 with ⟨s2, t2, ok2⟩
      have hinv2 : Inv s2 := by
        have hh := (sns_frame cfg s1).2.2.2.2.2.2 hinv1
        rwa [hsns] at hh
      simp only [hsns]
      cases ok2
      · simpa using hinv2
      · rcases hpw : pushWithEvents cfg u false s2 with ⟨s3, t3, ok3⟩
        have hinv3 : Inv s3 := by
          have h1 : (pushWithEvents cfg u false s2).1 = s3 := by rw [hpw]
          rw [pushWithEvents_fst] at h1
          rw [← h1]
          simpa [Inv] using hinv2
        simp only [hpw]
        cases ok3
        · simpa using hinv3
        · cases hpend : s3.pendingSyncUpdates
          · simpa [hpend] using hinv3
          · simp only [hpend]
            simpa [Inv, spss_snapshotGeneration, spss_synced] using hinv3

lemma sou_push_mem (cfg : Config) (u : Blob) (s : St)
    (hs : cfg.hasSync = true)
    (hok : (syncOutgoingUpdate cfg u s).2.2 = true) :
    Ev.pushCall u false ∈ (syncOutgoingUpdate cfg u s).2.1 := by
  rcases hpp : pullPhase cfg s with ⟨s1, t1, ok1⟩
  rw [syncOutgoingUpdate] at hok ⊢
  simp only [hs, if_true, hpp] at hok ⊢
  cases ok1
  · simp at hok
  · rcases hsns : syncSnapshotIfNeeded cfg s1 with ⟨s2, t2, ok2⟩
    simp only [hsns] at hok ⊢
    cases ok2
    · simp at hok
    · rcases hpw : pushWithEvents cfg u false s2 with ⟨s3, t3, ok3⟩
      have hmem : Ev.pushCall u false ∈ t3 := by
        have := pwe_pushCall_mem cfg u false s2 hs
        rwa [hpw] at this
      simp only [hpw] at hok ⊢
      cases ok3
      · simp at hok
      · cases hpend : s3.pendingSyncUpdates
        · simp [hpend, hmem]
        · simp [hpend, hmem]

lemma uh_sync_eq (cfg : Config) (u : Blob) (s : St) :
    updateHandler cfg Origin.sync u s =
      ((persistUpdate cfg (cfg.encode u) false s).1,
        (persistUpdate cfg (cfg.encode u) false s).2, true) := rfl

lemma uh_realtime_eq (cfg : Config) (u : Blob) (s : St) :
    updateHandler cfg Origin.realtime u s =
      ((persistUpdate cfg (cfg.encode u) false s).1,
        (persistUpdate cfg (cfg.encode u) false s).2, true) := rfl

lemma uh_other_eq (cfg : Config) (u : Blob) (tag : Nat) (s : St) :
    updateHandler cfg (Origin.other tag) u s =
      (let r1 := persistUpdate cfg (cfg.encode u) true s
       if cfg.hasSync then
         (let r2 := syncOutgoingUpdate cfg (cfg.encode u) r1.1
          if r2.2.2 then
            (let r3 := publishRealtime cfg (cfg.encode u) r2.1
             (r3.1, r1.2 ++ r2.2.1 ++ r3.2.1, r3.2.2))
          else (r2.1, r1.2 ++ r2.2.1, false))
       else if cfg.hasRealtime then
         (let r2 := publishRealtime cfg (cfg.encode u) r1.1
          (r2.1, r1.2 ++ r2.2.1, r2.2.2))
       else (r1.1, r1.2, true)) := rfl

lemma pu_trace_cons (cfg : Config) (u : Blob) (mp : Bool) (s : St) :
    (persistUpdate cfg u mp s).2 =
      Ev.appendUpdate u :: (persistUpdate cfg u mp s).2.tail := by
  cases mp
  · rw [persistUpdate_false_eq]; simp
  · rw [persistUpdate_true_eq]; simp

lemma spss_mark_mem (cfg : Config) (l : List Blob) (s : St)
    (hm : cfg.hasMarkPendingSync = true) (hne : l ≠ []) :
    Ev.markPendingSync l ∈ (setPendingSyncState cfg l s).2 := by
  match l with
  | [] => exact absurd rfl hne
  | x :: xs => simp [setPendingSyncState, hm]

lemma pu_markPending_mem (cfg : Config) (u : Blob) (s : St)
    (hm : cfg.hasMarkPendingSync = true) :
    Ev.markPendingSync (s.pendingSyncUpdates ++ [u]) ∈
      (persistUpdate cfg u true s).2 := by
  rw [persistUpdate_true_eq]
  simp only [List.mem_append, List.append_assoc]
  exact Or.inr (Or.inl (spss_mark_mem _ _ _ hm (by simp)))

/-! ## Claim theorems -/

/-- C1 — Echo suppression: an update delivered to the CRDT update hook with
origin `STORAGE` is ignored entirely (no storage call, no push, no publish,
state unchanged); with origin `SYNC` or `REALTIME` it is persisted via
`storage.appendUpdate` (the first effect of the run) without touching
`pending_sync` and with no push, publish or pending-list write anywhere in
the run; an update with any other origin is marked pending
(`markPendingSync` of the extended list) and forwarded: published when only
realtime is configured, and pushed (and then published, when realtime is
also configured) when sync is configured and the run completes. -/
theorem echo_suppression (cfg : Config) (s : St) (u : Blob) (tag : Nat) :
    updateHandler cfg Origin.storage u s = (s, [], true) ∧
      ((updateHandler cfg Origin.sync u s).2.1.head? =
          some (Ev.appendUpdate (cfg.encode u)) ∧
        (updateHandler cfg Origin.sync u s).1.pendingSyncUpdates =
          s.pendingSyncUpdates ∧
        noForwarding (updateHandler cfg Origin.sync u s).2.1 = true) ∧
      ((updateHandler cfg Origin.realtime u s).2.1.head? =
          some (Ev.appendUpdate (cfg.encode u)) ∧
        (updateHandler cfg Origin.realtime u s).1.pendingSyncUpdates =
          s.pendingSyncUpdates ∧
        noForwarding (updateHandler cfg Origin.realtime u s).2.1 = true) ∧
      ((updateHandler cfg (Origin.other tag) u s).2.1.head? =
          some (Ev.appendUpdate (cfg.encode u)) ∧
        (cfg.hasMarkPendingSync = true →
          Ev.markPendingSync (s.pendingSyncUpdates ++ [cfg.encode u]) ∈
            (updateHandler cfg (Origin.other tag) u s).2.1) ∧
        (cfg.hasSync = false → cfg.hasRealtime = true →
          Ev.publish (cfg.encode u) ∈
            (updateHandler cfg (Origin.other tag) u s).2.1) ∧
        (cfg.hasSync = true →
          (updateHandler cfg (Origin.other tag) u s).2.2 = true →
          Ev.pushCall (cfg.encode u) false ∈
              (updateHandler cfg (Origin.other tag) u s).2.1 ∧
            (cfg.hasRealtime = true →
              Ev.publish (cfg.encode u) ∈
                (updateHandler cfg (Origin.other tag) u s).2.1))) := by
  refine ⟨rfl, ?_, ?_, ?_⟩
  · rw [uh_sync_eq]
    exact ⟨by rw [pu_trace_cons]; rfl, pu_pending_false .., noForwarding_pu_false ..⟩
  · rw [uh_realtime_eq]
    exact ⟨by rw [pu_trace_cons]; rfl, pu_pending_false .., noForwarding_pu_false ..⟩
  · cases hs : cfg.hasSync
    · cases hr : cfg.hasRealtime
      · rw [uh_other_eq]
        simp only [hs, hr, Bool.false_eq_true, if_false]
        refine ⟨by rw [pu_trace_cons]; rfl,
          fun hm => pu_markPending_mem _ _ _ hm, ?_, ?_⟩
        · intro _ h
          exact h.elim
        · intro h
          exact h.elim
      · rw [uh_other_eq]
        simp only [hs, hr, Bool.false_eq_true, if_false, if_true]
        refine ⟨?_, ?_, ?_, ?_⟩
        · rw [pu_trace_cons]
          rfl
        · intro hm
          simp only [List.mem_append]
          exact Or.inl (pu_markPending_mem _ _ _ hm)
        · intro _ _
          simp only [List.mem_append]
          exact Or.inr (pr_publish_mem _ _ _ hr)
        · intro h
          exact h.elim
    · rw [uh_other_eq]
      simp only [hs, if_true]
      rcases hsou : syncOutgoingUpdate cfg (cfg.encode u)
        (persistUpdate cfg (cfg.encode u) true s).1 with ⟨s2, t2, ok2⟩
      simp only [hsou]
      cases ok2
      · simp only [Bool.false_eq_true, if_false]
        refine ⟨by rw [pu_trace_cons]; rfl, ?_, ?_, ?_⟩
        · intro hm
          simp only [List.mem_append]
          exact Or.inl (pu_markPending_mem _ _ _ hm)
        · intro h
          exact absurd h (by simp)
        · intro _ h
          exact h.elim
      · simp only [if_true]
        refine ⟨by rw [pu_trace_cons]; rfl, ?_, ?_, ?_⟩
        · intro hm
          simp only [List.mem_append]
          exact Or.inl (Or.inl (pu_markPending_mem _ _ _ hm))
        · intro h
          exact absurd h (by simp)
        · intro _ _
          constructor
          · have hmem : Ev.pushCall (cfg.encode u) false ∈ t2 := by
              have hh := sou_push_mem cfg (cfg.encode u)
                (persistUpdate cfg (cfg.encode u) true s).1 hs
                (by rw [hsou])
              rwa [hsou] at hh
            simp only [List.mem_append]
            exact Or.inl (Or.inr hmem)
          · intro hr
            simp only [List.mem_append]
            exact Or.inr (pr_publish_mem _ _ _ hr)

lemma uh_other_head (cfg : Config) (u : Blob) (tag : Nat) (s : St) :
    (updateHandler cfg (Origin.other tag) u s).2.1.head? =
      some (Ev.appendUpdate (cfg.encode u)) := by
  rw [uh_other_eq]
  dsimp only
  repeat' split
  all_goals rw [pu_trace_cons]
  all_goals rfl

/-- C1 witness: concrete runs discharging the hypotheses of
`echo_suppression` — with sync and realtime configured, a local update is
marked pending, pushed and published; with realtime only, it is published. -/
theorem echo_suppression_witness :
    Ev.markPendingSync [[7]] ∈
        (updateHandler fullCfg (Origin.other 0) [7]
          (mkSt [PullOutcome.ok none] [true])).2.1 ∧
      Ev.publish [7] ∈
        (updateHandler rtOnlyCfg (Origin.other 0) [7] (mkSt [] [])).2.1 ∧
      Ev.pushCall [7] false ∈
        (updateHandler fullCfg (Origin.other 0) [7]
          (mkSt [PullOutcome.ok none] [true])).2.1 := by
  refine ⟨?_, ?_, ?_⟩
  · exact (echo_suppression fullCfg (mkSt [PullOutcome.ok none] [true])
      [7] 0).2.2.2.2.1 rfl
  · exact (echo_suppression rtOnlyCfg (mkSt [] []) [7] 0).2.2.2.2.2.1 rfl rfl
  · exact ((echo_suppression fullCfg (mkSt [PullOutcome.ok none] [true])
      [7] 0).2.2.2.2.2.2 rfl (by decide)).1

/-- C2 — Persistence precedes network: in the run triggered by a locally
authored update (origin not one of the three runtime tokens), the
`storage.appendUpdate` call is the first effect of the trace, and every
`sync.push` invocation and every `realtime.publish` invocation occurs
strictly after it. -/
theorem persistence_precedes_network (cfg : Config) (s : St) (u : Blob)
    (tag : Nat) :
    (updateHandler cfg (Origin.other tag) u s).2.1.head? =
        some (Ev.appendUpdate (cfg.encode u)) ∧
      ∀ (j : Nat) (e : Ev),
        ((updateHandler cfg (Origin.other tag) u s).2.1)[j]? = some e →
        (e.isPushCall = true ∨ e.isPublish = true) → 0 < j := by
  refine ⟨uh_other_head .., ?_⟩
  intro j e hj hpp
  rcases htr : (updateHandler cfg (Origin.other tag) u s).2.1 with _ | ⟨e0, rest⟩
  · rw [htr] at hj
    simp at hj
  · have h0 : e0 = Ev.appendUpdate (cfg.encode u) := by
      have hh := uh_other_head cfg u tag s
      rw [htr] at hh
      simpa using hh
    rw [htr] at hj
    cases j
    · simp only [List.getElem?_cons_zero, Option.some.injEq] at hj
      subst hj
      subst h0
      rcases hpp with hpp | hpp <;> simp [Ev.isPushCall, Ev.isPublish] at hpp
    · exact Nat.succ_pos _

/-- C2 witness: the ordering theorem applied to a concrete run with sync and
realtime configured, instantiated at the index of its push call. -/
theorem persistence_precedes_network_witness :
    0 < 11 ∧
      ((updateHandler fullCfg (Origin.other 0) [7]
          (mkSt [PullOutcome.ok none] [true])).2.1)[11]? =
        some (Ev.pushCall [7] false) := by
  constructor
  · exact (persistence_precedes_network fullCfg
      (mkSt [PullOutcome.ok none] [true]) [7] 0).2 11
      (Ev.pushCall [7] false) (by decide) (Or.inl (by decide))
  · decide

/-- C3 — Pending-sync advances exactly on push success: in the outgoing
update sequence (pull phase and snapshot handshake having completed), if the
incremental push succeeds, `pending_sync` afterwards equals its previous
value with the head removed and the shrunk list is persisted
(`markPendingSync` of the tail, or `clearPendingSync` when it empties);
if the push rejects, `pending_sync` and its persisted copy are unchanged and
an incremental push-error event is emitted. -/
theorem pending_sync_advance (cfg : Config) (s s1 s2 : St)
    (t1 t2 : List Ev) (u : Blob)
    (hs : cfg.hasSync = true)
    (hmark : cfg.hasMarkPendingSync = true)
    (hclear : cfg.hasClearPendingSync = true)
    (hpull : pullPhase cfg s = (s1, t1, true))
    (hsnap : syncSnapshotIfNeeded cfg s1 = (s2, t2, true)) :
    ((s2.pushResults.head? = some true ∨ s2.pushResults = []) →
      (syncOutgoingUpdate cfg u s).1.pendingSyncUpdates =
          s.pendingSyncUpdates.tail ∧
        (s.pendingSyncUpdates ≠ [] →
          (syncOutgoingUpdate cfg u s).1.storedPending =
              s.pendingSyncUpdates.tail ∧
            (if s.pendingSyncUpdates.tail = [] then
              Ev.clearPendingSync ∈ (syncOutgoingUpdate cfg u s).2.1
            else
              Ev.markPendingSync s.pendingSyncUpdates.tail ∈
                (syncOutgoingUpdate cfg u s).2.1)) ∧
        (syncOutgoingUpdate cfg u s).2.2 = true) ∧
      (s2.pushResults.head? = some false →
        (syncOutgoingUpdate cfg u s).1.pendingSyncUpdates =
            s.pendingSyncUpdates ∧
          (syncOutgoingUpdate cfg u s).1.storedPending = s.storedPending ∧
          (syncOutgoingUpdate cfg u s).2.2 = false ∧
          ((syncOutgoingUpdate cfg u s).2.1.any fun e =>
              e.isIncrementalPushErrorEmit) = true) := by
  have hp1 : s1.pendingSyncUpdates = s.pendingSyncUpdates := by
    have hh := (pp_frame cfg s).1
    rwa [hpull] at hh
  have hsp1 : s1.storedPending = s.storedPending := by
    have hh := (pp_frame cfg s).2.1
    rwa [hpull] at hh
  have hp2 : s2.pendingSyncUpdates = s.pendingSyncUpdates := by
    have hh := (sns_frame cfg s1).2.2.1
    rw [hsnap] at hh
    rwa [hp1] at hh
  have hsp2 : s2.storedPending = s.storedPending := by
    have hh := (sns_frame cfg s1).2.2.2.1
    rw [hsnap] at hh
    rwa [hsp1] at hh
  constructor
  · intro hok
    rw [syncOutgoingUpdate]
    simp only [hs, if_true, hpull, hsnap]
    rw [pushWithEvents_ok cfg u false s2 hs hok]
    dsimp only
    rw [hp2]
    cases hpend : s.pendingSyncUpdates with
    | nil =>
      exact ⟨by simp, fun hne => absurd rfl hne, by simp⟩
    | cons x xs =>
      dsimp only
      refine ⟨by simp [spss_pending], fun _ => ⟨?_, ?_⟩, by simp⟩
      · cases xs with
        | nil => simp [setPendingSyncState, hclear]
        | cons y ys => simp [setPendingSyncState, hmark]
      · cases xs with
        | nil =>
          simp [setPendingSyncState, hclear]
        | cons y ys =>
          simp only [List.tail_cons]
          rw [if_neg (by simp : ¬(y :: ys = []))]
          simp only [eq_self_iff_true, if_true, List.mem_append]
          exact Or.inr (spss_mark_mem _ _ _ hmark (by simp))
  · intro hfail
    rw [syncOutgoingUpdate]
    simp only [hs, if_true, hpull, hsnap]
    rw [pushWithEvents_fail cfg u false s2 hs hfail]
    dsimp only
    refine ⟨by simp [hp2], by simp [hsp2], by simp, ?_⟩
    simp [List.any_append, Ev.isIncrementalPushErrorEmit]

/-- C3 witness: the pending-sync theorem applied to a concrete outgoing run
whose single pending entry is drained and whose emptied list is persisted
via `clearPendingSync`. -/
theorem pending_sync_advance_witness :
    (syncOutgoingUpdate syncOnlyCfg [9] c3s0).1.pendingSyncUpdates = [] ∧
      Ev.clearPendingSync ∈ (syncOutgoingUpdate syncOnlyCfg [9] c3s0).2.1 := by
  have h := (pending_sync_advance syncOnlyCfg c3s0 c3s1 c3s2 c3t1 c3t2 [9]
    rfl rfl rfl (by decide) (by decide)).1 (by decide)
  refine ⟨?_, ?_⟩
  · simpa using h.1
  · have h2 := (h.2.1 (by decide)).2
    simpa using h2

lemma fetch_fail (cfg : Config) (reg : Bool) (s : St)
    (hs : cfg.hasSync = true)
    (hf : s.pullResults.head? = some PullOutcome.fail) :
    (fetchAndApplyFromSync cfg reg s).2.2 = false ∧
      ((fetchAndApplyFromSync cfg reg s).2.1.any fun e =>
          e.isPullErrorEmit) = true := by
  match hp : s.pullResults with
  | [] =>
    rw [hp] at hf
    simp at hf
  | r :: rest =>
    rw [hp] at hf
    simp only [List.head?_cons, Option.some.injEq] at hf
    subst hf
    simp [fetchAndApplyFromSync, nextPull, hs, hp, Ev.isPullErrorEmit]

/-- C4 counterexample: with a sync adapter whose pull rejects, opening a
brand-new document does not resolve — `createManagedDoc` (and hence
`getDocument`) rejects, contradicting the claim that the handle is still
returned with the state recovered from storage. -/
theorem failing_pull_blocks_open_cex :
    openResolves
      (createManagedDoc syncOnlyCfg emptyAdapter [PullOutcome.fail] []) =
      false := by
  decide

/-- C4 amended — a failing initial pull rejects opening: if the sync
adapter's pull rejects during hydration, a pull-error sync event is emitted,
but `createManagedDoc` completes with the rejection flag, so the promise
returned by `getDocument` rejects instead of resolving with a handle
(`onError` is not invoked on this path). -/
theorem failing_pull_rejects_open (cfg : Config) (a : Adapter)
    (pulls : List PullOutcome) (pushes : List Bool)
    (hs : cfg.hasSync = true)
    (hf : pulls.head? = some PullOutcome.fail) :
    ∀ s tr ok, createManagedDoc cfg a pulls pushes = Except.ok (s, tr, ok) →
      ok = false ∧ (tr.any fun e => e.isPullErrorEmit) = true := by
  intro s tr ok h
  rcases hasm : (assembleStoredDoc a).1 with e | stored
  · rw [createManagedDoc, hasm] at h
    cases h
  · have hff := fetch_fail cfg false (hydrateState cfg stored pulls pushes)
      hs (by show pulls.head? = _; exact hf)
    rcases hfetch : fetchAndApplyFromSync cfg false
      (hydrateState cfg stored pulls pushes) with ⟨sf, tf, okf⟩
    rw [hfetch] at hff
    rw [createManagedDoc, hasm] at h
    simp only [hfetch] at h
    rcases hff with ⟨hokf, hany⟩
    subst hokf
    simp only [Bool.false_eq_true, if_false, Except.ok.injEq,
      Prod.mk.injEq] at h
    obtain ⟨hsf, htf, hok⟩ := h
    subst htf
    subst hok
    exact ⟨rfl, hany⟩

/-- C4 amended witness: the concrete failing-pull hydration rejects and its
trace carries the pull-error event. -/
theorem failing_pull_rejects_open_witness :
    openResolves
        (createManagedDoc syncOnlyCfg emptyAdapter [PullOutcome.fail] []) =
        false ∧
      ((openTrace
          (createManagedDoc syncOnlyCfg emptyAdapter
            [PullOutcome.fail] [])).any fun e => e.isPullErrorEmit) = true := by
  have h := failing_pull_rejects_open syncOnlyCfg emptyAdapter
    [PullOutcome.fail] [] rfl rfl
    (hydratedState
      (createManagedDoc syncOnlyCfg emptyAdapter [PullOutcome.fail] []))
    (openTrace
      (createManagedDoc syncOnlyCfg emptyAdapter [PullOutcome.fail] []))
    (openResolves
      (createManagedDoc syncOnlyCfg emptyAdapter [PullOutcome.fail] []))
    (by rfl)
  exact ⟨h.1, h.2⟩

lemma uh_inv (cfg : Config) (o : Origin) (u : Blob) (s : St) (h : Inv s) :
    Inv (updateHandler cfg o u s).1 := by
  cases o
  · exact h
  · rw [uh_sync_eq]
    exact pu_inv cfg (cfg.encode u) false s h
  · rw [uh_realtime_eq]
    exact pu_inv cfg (cfg.encode u) false s h
  · rw [uh_other_eq]
    dsimp only
    split
    · split
      · rw [pr_fst]
        exact sou_inv _ _ _ (pu_inv cfg (cfg.encode u) true s h)
      · exact sou_inv _ _ _ (pu_inv cfg (cfg.encode u) true s h)
    · split
      · rw [pr_fst]
        exact pu_inv cfg (cfg.encode u) true s h
      · exact pu_inv cfg (cfg.encode u) true s h

lemma hydrate_inv (cfg : Config) (stored : Option StoredDoc)
    (pulls : List PullOutcome) (pushes : List Bool)
    (hmeta : ∀ st, stored = some st → storedMetaConsistent st) :
    Inv (hydrateState cfg stored pulls pushes) := by
  cases stored with
  | none => simp [hydrateState, Inv]
  | some st =>
    have := hmeta st rfl
    simpa [hydrateState, Inv, storedMetaConsistent] using this

lemma drain_inv (l : List Blob) (cfg : Config) (s : St) (t : List Ev)
    (h : Inv s) :
    Inv ((l.foldl
      (fun (acc : St × List Ev) u =>
        let (s', t', _) := syncOutgoingUpdate cfg u acc.1
        (s', acc.2 ++ t'))
      (s, t)).1) := by
  induction l generalizing s t with
  | nil => exact h
  | cons x xs ih =>
    simp only [List.foldl_cons]
    exact ih _ _ (sou_inv _ _ _ h)

/-- C5 counterexample: a `StorageAdapter` whose snapshot record reports
`syncedSnapshotGeneration = 2` with no snapshot and no `snapshotGeneration`
hydrates into a state with `snapshot_generation = 0 <
synced_snapshot_generation = 2` — the invariant does not hold immediately
after hydration for every adapter, as the claim states. -/
theorem generation_invariant_cex :
    (hydratedState
        (createManagedDoc noSyncCfg c5Adapter [] [])).snapshotGeneration <
      (hydratedState
        (createManagedDoc noSyncCfg c5Adapter [] [])).syncedSnapshotGeneration := by
  decide

/-- C5 amended — generation invariant: `synced_snapshot_generation ≤
snapshot_generation` is preserved by every runtime operation (the update
hook for every origin, the initial and pull-before-push pulls, the snapshot
handshake, the outgoing-update sequence, `storeSnapshot` — unconditionally —
and `maybeSnapshot`), and it holds immediately after hydration provided the
generations the StorageAdapter returns satisfy it under the code's
defaulting (`storedMetaConsistent`). -/
theorem generation_invariant_amended :
    (∀ cfg o u s, Inv s → Inv (updateHandler cfg o u s).1) ∧
      (∀ cfg reg s, Inv s → Inv (fetchAndApplyFromSync cfg reg s).1) ∧
      (∀ cfg s, Inv s → Inv (syncSnapshotIfNeeded cfg s).1) ∧
      (∀ cfg u s, Inv s → Inv (syncOutgoingUpdate cfg u s).1) ∧
      (∀ cfg p ms rc s, Inv (storeSnapshot cfg p ms rc s).1) ∧
      (∀ cfg s, Inv s → Inv (maybeSnapshot cfg s).1) ∧
      (∀ cfg stored pulls pushes,
        (∀ st, stored = some st → storedMetaConsistent st) →
        Inv (hydrateState cfg stored pulls pushes)) ∧
      (∀ cfg a pulls pushes s tr ok,
        createManagedDoc cfg a pulls pushes = Except.ok (s, tr, ok) →
        (∀ st, (assembleStoredDoc a).1 = Except.ok (some st) →
          storedMetaConsistent st) →
        Inv s) := by
  refine ⟨uh_inv, fun cfg reg s => (fetch_frame cfg reg s).2.2.2.2,
    fun cfg s => (sns_frame cfg s).2.2.2.2.2.2, sou_inv,
    fun cfg p ms rc s => storeSnapshot_inv .., maybeSnapshot_inv,
    hydrate_inv, ?_⟩
  intro cfg a pulls pushes s tr ok h hmeta
  rcases hasm : (assembleStoredDoc a).1 with e | stored
  · rw [createManagedDoc, hasm] at h
    cases h
  · rw [createManagedDoc, hasm] at h
    have hinv0 : Inv (hydrateState cfg stored pulls pushes) :=
      hydrate_inv _ _ _ _ (fun st hst => hmeta st (by rw [hasm, hst]))
    rcases hfetch : fetchAndApplyFromSync cfg false
      (hydrateState cfg stored pulls pushes) with ⟨sf, tf, okf⟩
    have hinvf : Inv sf := by
      have hh := (fetch_frame cfg false
        (hydrateState cfg stored pulls pushes)).2.2.2.2 hinv0
      rwa [hfetch] at hh
    simp only [hfetch] at h
    cases okf
    · simp only [Bool.false_eq_true, if_false, Except.ok.injEq,
        Prod.mk.injEq] at h
      obtain ⟨hsf, -, -⟩ := h
      rw [← hsf]
      exact hinvf
    · simp only [if_true] at h
      split at h
      · simp only [Except.ok.injEq, Prod.mk.injEq] at h
        obtain ⟨hsf, -, -⟩ := h
        rw [← hsf]
        exact drain_inv _ _ _ _ hinvf
      · simp only [Except.ok.injEq, Prod.mk.injEq] at h
        obtain ⟨hsf, -, -⟩ := h
        rw [← hsf]
        exact hinvf

/-- C5 amended witness: the preservation theorem applied to a concrete
mutation on a concrete consistent state, and the hydration clause applied
to a consistent stored record. -/
theorem generation_invariant_amended_witness :
    Inv (updateHandler fullCfg (Origin.other 0) [3]
        (mkSt [PullOutcome.ok none] [true])).1 ∧
      Inv (hydrateState noSyncCfg
        (some ⟨some [5], [], [], some 3, some 2⟩) [] []) := by
  constructor
  · exact generation_invariant_amended.1 fullCfg (Origin.other 0) [3]
      (mkSt [PullOutcome.ok none] [true]) (by simp [Inv, mkSt])
  · exact generation_invariant_amended.2.2.2.2.2.2.1 noSyncCfg
      (some ⟨some [5], [], [], some 3, some 2⟩) [] []
      (fun st hst => by cases hst; simp [storedMetaConsistent])

lemma fetch_trace_pullCall (cfg : Config) (reg : Bool) (s : St)
    (hs : cfg.hasSync = true) :
    ((fetchAndApplyFromSync cfg reg s).2.1)[1]? =
      some (Ev.pullCall
        (if (s.isBrandNew &&
            (((cfg.policies.bind Policies.snapshotSync).bind
                SnapshotSyncPolicy.requestOnNewDocument).getD true)) = true
         then none
         else some (encodeStateVector s.doc))
        (s.isBrandNew &&
          (((cfg.policies.bind Policies.snapshotSync).bind
              SnapshotSyncPolicy.requestOnNewDocument).getD true))) := by
  match hp : s.pullResults with
  | [] =>
    simp [fetchAndApplyFromSync, nextPull, hs, hp]
  | PullOutcome.fail :: rest =>
    simp [fetchAndApplyFromSync, nextPull, hs, hp]
  | PullOutcome.ok none :: rest =>
    simp [fetchAndApplyFromSync, nextPull, hs, hp]
  | PullOutcome.ok (some rr) :: rest =>
    cases hempty : rr.isEmpty
    all_goals simp [fetchAndApplyFromSync, nextPull, hs, hp, hempty]

/-- C6 — Pull request shape: with a sync adapter configured, a brand-new
document's pull is issued with no state vector and `requestSnapshot = true`
under the default `snapshotSync.requestOnNewDocument` policy; a document
that is not brand-new pulls with its current encoded state vector and no
snapshot request; with `requestOnNewDocument = false` even a brand-new
document pulls with the (empty-document) state vector and no snapshot
request; and a successful pull clears the brand-new flag, so every later
pull is of the second kind. -/
theorem pull_request_shape (cfg : Config) (reg : Bool) (s : St)
    (hs : cfg.hasSync = true) :
    (s.isBrandNew = true →
      ((cfg.policies.bind Policies.snapshotSync).bind
          SnapshotSyncPolicy.requestOnNewDocument) ≠ some false →
      ((fetchAndApplyFromSync cfg reg s).2.1)[1]? =
        some (Ev.pullCall none true)) ∧
      (s.isBrandNew = false →
        ((fetchAndApplyFromSync cfg reg s).2.1)[1]? =
          some (Ev.pullCall (some (encodeStateVector s.doc)) false)) ∧
      (s.isBrandNew = true →
        ((cfg.policies.bind Policies.snapshotSync).bind
            SnapshotSyncPolicy.requestOnNewDocument) = some false →
        ((fetchAndApplyFromSync cfg reg s).2.1)[1]? =
          some (Ev.pullCall (some (encodeStateVector s.doc)) false)) ∧
      ((fetchAndApplyFromSync cfg reg s).2.2 = true →
        (fetchAndApplyFromSync cfg reg s).1.isBrandNew = false) := by
  refine ⟨?_, ?_, ?_, fun hok => (fetch_frame cfg reg s).2.2.2.1 hs hok⟩
  · intro hb hpol
    have hgd : (((cfg.policies.bind Policies.snapshotSync).bind
        SnapshotSyncPolicy.requestOnNewDocument).getD true) = true := by
      rcases hopt : ((cfg.policies.bind Policies.snapshotSync).bind
          SnapshotSyncPolicy.requestOnNewDocument) with _ | b
      · rfl
      · cases b
        · exact absurd hopt hpol
        · rfl
    rw [fetch_trace_pullCall cfg reg s hs]
    simp [hb, hgd]
  · intro hb
    rw [fetch_trace_pullCall cfg reg s hs]
    simp [hb]
  · intro hb hpol
    rw [fetch_trace_pullCall cfg reg s hs]
    simp [hb, hpol]

/-- C6 witness: concrete pulls — a brand-new document under the default
policy requests a snapshot with no state vector; the same document with
`requestOnNewDocument = false` sends its state vector. -/
theorem pull_request_shape_witness :
    ((fetchAndApplyFromSync fullCfg false (mkSt [PullOutcome.ok none] [])).2.1)[1]? =
        some (Ev.pullCall none true) ∧
      ((fetchAndApplyFromSync c6Cfg false (mkSt [PullOutcome.ok none] [])).2.1)[1]? =
        some (Ev.pullCall (some (encodeStateVector [])) false) ∧
      ((fetchAndApplyFromSync fullCfg false
          { mkSt [PullOutcome.ok none] [] with isBrandNew := false }).2.1)[1]? =
        some (Ev.pullCall (some (encodeStateVector [])) false) := by
  refine ⟨?_, ?_, ?_⟩
  · exact (pull_request_shape fullCfg false (mkSt [PullOutcome.ok none] [])
      rfl).1 rfl (by decide)
  · exact (pull_request_shape c6Cfg false (mkSt [PullOutcome.ok none] [])
      rfl).2.2.1 rfl rfl
  · exact (pull_request_shape fullCfg false
      { mkSt [PullOutcome.ok none] [] with isBrandNew := false } rfl).2.1 rfl

/-- C7 counterexample: for an adapter whose `getSnapshot` returns `null`
while its update log is non-empty, `assembleStoredDoc` performs only the
snapshot read (the update-log and pending-sync reads are skipped), returns
`null`, and the document is classified brand-new — against the claim that
all three reads always happen and that brand-new requires an empty update
log. -/
theorem hydration_reads_cex :
    (assembleStoredDoc c7Adapter).2 = [StorageRead.snapshotRead] ∧
      (assembleStoredDoc c7Adapter).1.toOption = some none ∧
      (hydratedState
        (createManagedDoc noSyncCfg c7Adapter [] [])).isBrandNew = true ∧
      c7Adapter.getUpdates = some (some [[1]]) := by
  decide

/-- C7 amended — hydration reads and brand-new classification: a missing
`getUpdates` throws; a `null` from `getSnapshot` short-circuits assembly
(only the snapshot read is performed, the result is `null` and the document
is brand-new); an absent optional getter is treated as empty and simply not
read; when every implemented read returns data, the reads happen in order
snapshot, updates, pending-sync; and under a fully answering adapter the
document is brand-new exactly when snapshot, update log and pending-sync
are all empty — the generation metadata does not affect brand-newness. -/
theorem hydration_reads_amended :
    (∀ a : Adapter, a.getUpdates = none →
        assembleStoredDoc a = (Except.error (), [])) ∧
      (∀ (a : Adapter) us, a.getUpdates = some us →
        a.getSnapshot = some none →
        assembleStoredDoc a = (Except.ok none, [StorageRead.snapshotRead])) ∧
      (∀ (a : Adapter) us, a.getSnapshot = none →
        a.getUpdates = some (some us) → a.getPendingSync = none →
        (assembleStoredDoc a).2 = [StorageRead.updatesRead] ∧
          ((assembleStoredDoc a).1 =
              Except.ok (some ⟨none, us, [], none, none⟩) ∨
            (us = [] ∧ (assembleStoredDoc a).1 = Except.ok none))) ∧
      (∀ (a : Adapter) rec us ps, a.getSnapshot = some (some rec) →
        a.getUpdates = some (some us) → a.getPendingSync = some (some ps) →
        (assembleStoredDoc a).2 =
          [StorageRead.snapshotRead, StorageRead.updatesRead,
            StorageRead.pendingSyncRead]) ∧
      (∀ (a : Adapter) rec us ps (cfg : Config) pulls pushes r,
        a.getSnapshot = some (some rec) →
        a.getUpdates = some (some us) → a.getPendingSync = some (some ps) →
        (assembleStoredDoc a).1 = Except.ok r →
        (hydrateState cfg r pulls pushes).isBrandNew =
          (rec.snapshot.isNone && us.isEmpty && ps.isEmpty)) := by
  refine ⟨?_, ?_, ?_, ?_, ?_⟩
  · intro a h
    simp [assembleStoredDoc, h]
  · intro a us hu hsnap
    simp [assembleStoredDoc, hu, hsnap]
  · intro a us hsnap hu hpend
    rw [assembleStoredDoc]
    simp only [hu, hsnap, hpend]
    cases us with
    | nil => simp
    | cons x xs => simp
  · intro a rec us ps hsnap hu hpend
    rw [assembleStoredDoc]
    simp only [hu, hsnap, hpend]
    split
    all_goals rfl
  · intro a rec us ps cfg pulls pushes r hsnap hu hpend hr
    rw [assembleStoredDoc] at hr
    simp only [hu, hsnap, hpend] at hr
    split at hr
    · rename_i hdata
      simp only [Except.ok.injEq] at hr
      subst hr
      simp [hydrateState]
    · rename_i hdata
      simp only [Except.ok.injEq] at hr
      subst hr
      simp only [Bool.not_eq_true, Bool.or_eq_false_iff] at hdata
      obtain ⟨⟨⟨⟨h1, h2⟩, h3⟩, h4⟩, h5⟩ := hdata
      have h2' : us = [] := by simpa using h2
      have h3' : ps = [] := by simpa using h3
      subst h2'
      subst h3'
      have h1' : rec.snapshot = none := by
        cases hx : rec.snapshot
        · rfl
        · rw [show (some rec).bind StoredSnapshotRecord.snapshot =
            rec.snapshot from rfl, hx] at h1
          simp at h1
      simp [hydrateState, h1']

/-- C7 amended witness: the amended hydration theorem applied to concrete
adapters — a missing `getUpdates` throws, a `null` snapshot read
short-circuits, an updates-only adapter yields a single read, a fully
answering adapter yields all three reads in order, and a stored snapshot
with explicit generation 0 is not brand-new. -/
theorem hydration_reads_amended_witness :
    assembleStoredDoc ⟨none, none, none⟩ = (Except.error (), []) ∧
      assembleStoredDoc emptyAdapter =
        (Except.ok none, [StorageRead.snapshotRead]) ∧
      (assembleStoredDoc ⟨none, some (some [[2]]), none⟩).2 =
        [StorageRead.updatesRead] ∧
      (assembleStoredDoc c10Adapter).2 =
        [StorageRead.snapshotRead, StorageRead.updatesRead,
          StorageRead.pendingSyncRead] ∧
      (hydrateState noSyncCfg (some ⟨some [5], [], [], some 0, none⟩)
        [] []).isBrandNew = false := by
  refine ⟨?_, ?_, ?_, ?_, ?_⟩
  · exact hydration_reads_amended.1 ⟨none, none, none⟩ rfl
  · exact hydration_reads_amended.2.1 emptyAdapter (some []) rfl rfl
  · exact (hydration_reads_amended.2.2.1 ⟨none, some (some [[2]]), none⟩
      [[2]] rfl rfl rfl).1
  · exact hydration_reads_amended.2.2.2.1 c10Adapter ⟨some [5], some 0, none⟩
      [] [] rfl rfl rfl
  · have h5 := hydration_reads_amended.2.2.2.2 c10Adapter
      ⟨some [5], some 0, none⟩ [] [] noSyncCfg [] []
      (some ⟨some [5], [], [], some 0, none⟩) rfl rfl rfl (by rfl)
    simpa using h5

/-- C8 — Snapshot-send suppression: with `snapshotSync.send = false`, the
snapshot handshake performs no snapshot push once some snapshot generation
has been marked synced (`synced_snapshot_generation > 0`) and completes
successfully; when no generation was ever marked synced it still pushes
exactly one snapshot; and in the concrete scenario
(`send = false`, `snapshotEvery.updates = 1`, two local mutations) the
whole run performs exactly three pushes: one snapshot push, then two
incremental pushes. -/
theorem snapshot_send_suppression :
    (∀ (cfg : Config) (s : St),
      (cfg.policies.bind Policies.snapshotSync).bind
          SnapshotSyncPolicy.send = some false →
      0 < s.syncedSnapshotGeneration →
      ((syncSnapshotIfNeeded cfg s).2.1.all fun e => !e.isPushCall) = true ∧
        (syncSnapshotIfNeeded cfg s).2.2 = true) ∧
      (∀ (cfg : Config) (s : St), cfg.hasSync = true →
        s.syncedSnapshotGeneration = 0 →
        ((syncSnapshotIfNeeded cfg s).2.1.countP fun e =>
            e.isSnapshotPushCall) = 1) ∧
      (c8Run.2.filterMap (fun e =>
          match e with
          | Ev.pushCall _ snap => some snap
          | _ => none) = [true, false, false]) := by
  refine ⟨fun cfg s hpol hsynced => sns_suppressed cfg s hpol hsynced,
    fun cfg s hs h0 => sns_first_send cfg s hs h0, ?_⟩
  decide

/-- C8 witness: the suppression clause applied to a state with a previously
synced generation (no push at all), and the first-send clause applied to a
never-synced state (exactly one snapshot push). -/
theorem snapshot_send_suppression_witness :
    ((syncSnapshotIfNeeded c8Cfg
        { mkSt [] [true] with
          snapshotGeneration := 5,
          syncedSnapshotGeneration := 3 }).2.1.all fun e =>
        !e.isPushCall) = true ∧
      ((syncSnapshotIfNeeded c8Cfg
          { mkSt [] [true] with snapshotGeneration := 5 }).2.1.countP fun e =>
          e.isSnapshotPushCall) = 1 := by
  constructor
  · exact (snapshot_send_suppression.1 c8Cfg
      { mkSt [] [true] with
        snapshotGeneration := 5, syncedSnapshotGeneration := 3 }
      rfl (by decide)).1
  · exact snapshot_send_suppression.2.1 c8Cfg
      { mkSt [] [true] with snapshotGeneration := 5 } rfl rfl

lemma maybeSnapshot_fires (cfg : Config) (se : SnapshotEveryPolicy)
    (p : Policies) (s : St) (hpol : cfg.policies = some p)
    (hse : p.snapshotEvery = some se)
    (hthresh : (∃ n, se.updates = some n ∧ n ≤ s.updatesSinceSnapshot) ∨
      (∃ m, se.bytes = some m ∧ m ≤ s.bytesSinceSnapshot)) :
    maybeSnapshot cfg s =
      storeSnapshot cfg (cfg.encode (encodeStateAsUpdate s.doc))
        false true s := by
  rcases hthresh with ⟨n, hn, hle⟩ | ⟨m, hm, hle⟩
  · simp [maybeSnapshot, hpol, hse, hn, hle]
  · rcases hu : se.updates with _ | n
    · simp [maybeSnapshot, hpol, hse, hm, hu, hle]
    · rcases Nat.lt_or_ge s.updatesSinceSnapshot n with hlt | hge
      · simp [maybeSnapshot, hpol, hse, hm, hu, hle, Nat.not_le.mpr hlt]
      · simp [maybeSnapshot, hpol, hse, hm, hu, hle, hge]

/-- C9 — Snapshot cadence is log-preserving: when an append brings the
updates-since-snapshot or bytes-since-snapshot counter up to its configured
`snapshotEvery` threshold, `persistUpdate` stores a full-state snapshot via
`storage.setSnapshot`, increments `snapshot_generation` and resets both
counters to zero, while the persisted update log is left untouched apart
from the one appended update (nothing is removed or truncated). -/
theorem snapshot_cadence_log_preserving (cfg : Config)
    (se : SnapshotEveryPolicy) (p : Policies) (s : St) (u : Blob) (mp : Bool)
    (hpol : cfg.policies = some p) (hse : p.snapshotEvery = some se)
    (hset : cfg.hasSetSnapshot = true)
    (hthresh : (∃ n, se.updates = some n ∧ n ≤ s.updatesSinceSnapshot + 1) ∨
      (∃ m, se.bytes = some m ∧ m ≤ s.bytesSinceSnapshot + u.length)) :
    Ev.setSnapshot (cfg.encode (encodeStateAsUpdate s.doc)) ∈
        (persistUpdate cfg u mp s).2 ∧
      (persistUpdate cfg u mp s).1.snapshotGeneration =
        s.snapshotGeneration + 1 ∧
      (persistUpdate cfg u mp s).1.updatesSinceSnapshot = 0 ∧
      (persistUpdate cfg u mp s).1.bytesSinceSnapshot = 0 ∧
      (persistUpdate cfg u mp s).1.storedUpdates = s.storedUpdates ++ [u] := by
  cases mp
  · rw [persistUpdate_false_eq]
    dsimp only
    rw [maybeSnapshot_fires cfg se p _ hpol hse (by simpa using hthresh)]
    refine ⟨?_, ?_, (ss_counters_reset ..).1, (ss_counters_reset ..).2, ?_⟩
    · simp only [List.mem_append]
      exact Or.inr (ss_setSnapshot_mem _ _ _ _ _ hset)
    · rw [ss_snapshotGeneration]
    · rw [ss_storedUpdates]
  · rw [persistUpdate_true_eq]
    dsimp only
    rw [maybeSnapshot_fires cfg se p _ hpol hse (by
      simp only [spss_updatesSinceSnapshot, spss_bytesSinceSnapshot]
      simpa using hthresh)]
    refine ⟨?_, ?_, (ss_counters_reset ..).1, (ss_counters_reset ..).2, ?_⟩
    · simp only [List.mem_append]
      refine Or.inr ?_
      have hmem := ss_setSnapshot_mem cfg
        (cfg.encode (encodeStateAsUpdate s.doc)) false true
        ({ (setPendingSyncState cfg
            (s.pendingSyncUpdates ++ [u])
            { s with storedUpdates := s.storedUpdates ++ [u] }).1 with
          updatesSinceSnapshot :=
            (setPendingSyncState cfg (s.pendingSyncUpdates ++ [u])
              { s with
                storedUpdates :=
                  s.storedUpdates ++ [u] }).1.updatesSinceSnapshot + 1
          bytesSinceSnapshot :=
            (setPendingSyncState cfg (s.pendingSyncUpdates ++ [u])
              { s with
                storedUpdates :=
                  s.storedUpdates ++ [u] }).1.bytesSinceSnapshot + u.length })
        hset
      simpa [spss_doc] using hmem
    · rw [ss_snapshotGeneration]
      simp [spss_snapshotGeneration]
    · rw [ss_storedUpdates]
      simp [spss_storedUpdates]

/-- C9 witness: with `snapshotEvery.updates = 1`, persisting a single
update on a fresh document stores a snapshot and bumps the generation. -/
theorem snapshot_cadence_log_preserving_witness :
    Ev.setSnapshot [] ∈ (persistUpdate c8Cfg [3] false (mkSt [] [])).2 ∧
      (persistUpdate c8Cfg [3] false
        (mkSt [] [])).1.snapshotGeneration = 1 ∧
      (persistUpdate c8Cfg [3] false (mkSt [] [])).1.storedUpdates = [[3]] := by
  have h := snapshot_cadence_log_preserving c8Cfg
    { updates := some 1, bytes := none }
    { snapshotEvery := some { updates := some 1, bytes := none },
      pullBeforePush := none,
      snapshotSync := some { send := some false, requestOnNewDocument := none } }
    (mkSt [] []) [3] false rfl rfl rfl (Or.inl ⟨1, rfl, by decide⟩)
  exact ⟨h.1, h.2.1, h.2.2.2.2⟩

/-- C10 counterexample: an adapter storing a snapshot blob together with an
explicit `snapshotGeneration = 0` hydrates to an in-memory
`snapshot_generation` of 0 even though a stored snapshot and generation
metadata are present — so 0 does not occur only when there is no stored
snapshot and no metadata. -/
theorem metadataless_generation_cex :
    (hydratedState
        (createManagedDoc noSyncCfg c10Adapter [] [])).snapshotGeneration =
        0 ∧
      (hydratedState
        (createManagedDoc noSyncCfg c10Adapter [] [])).storedSnapshot =
        some [5] := by
  decide

/-- C10 amended — hydration infers a generation for metadata-less
snapshots: a stored record with a snapshot blob but no `snapshotGeneration`
hydrates to `snapshot_generation = 1`; the in-memory generation is 0 only
when there is no stored record, when the record has neither snapshot nor
generation metadata, or when the adapter explicitly reports generation 0;
and with a non-zero generation the snapshot-sync handshake never takes a
fresh local snapshot (no `setSnapshot` call, generation unchanged). -/
theorem metadataless_generation_amended :
    (∀ (cfg : Config) stored pulls pushes (st : StoredDoc) (b : Blob),
      stored = some st → st.snapshotGeneration = none →
      st.snapshot = some b →
      (hydrateState cfg stored pulls pushes).snapshotGeneration = 1) ∧
      (∀ (cfg : Config) stored pulls pushes,
        (hydrateState cfg stored pulls pushes).snapshotGeneration = 0 →
        (stored = none ∨
          ∃ st, stored = some st ∧
            (st.snapshotGeneration = some 0 ∨
              (st.snapshotGeneration = none ∧ st.snapshot = none)))) ∧
      (∀ (cfg : Config) (s : St), s.snapshotGeneration ≠ 0 →
        ((syncSnapshotIfNeeded cfg s).2.1.all fun e =>
            !e.isSetSnapshot) = true ∧
          (syncSnapshotIfNeeded cfg s).1.snapshotGeneration =
            s.snapshotGeneration) := by
  refine ⟨?_, ?_, fun cfg s h =>
    ⟨(sns_gen_stable cfg s h).2, (sns_gen_stable cfg s h).1⟩⟩
  · intro cfg stored pulls pushes st b hst hgen hsnap
    subst hst
    simp [hydrateState, hgen, hsnap]
  · intro cfg stored pulls pushes h
    cases stored with
    | none => exact Or.inl rfl
    | some st =>
      refine Or.inr ⟨st, rfl, ?_⟩
      simp only [hydrateState] at h
      rcases hgen : st.snapshotGeneration with _ | g
      · rw [hgen] at h
        simp only [Option.getD_none] at h
        rcases hsnap : st.snapshot with _ | b
        · exact Or.inr ⟨rfl, rfl⟩
        · rw [hsnap] at h
          simp at h
      · rw [hgen] at h
        simp only [Option.getD_some] at h
        subst h
        exact Or.inl rfl

/-- C10 amended witness: a metadata-less stored snapshot hydrates to
generation 1, and the handshake on a generation-1 state takes no local
snapshot. -/
theorem metadataless_generation_amended_witness :
    (hydrateState noSyncCfg (some ⟨some [5], [], [], none, none⟩)
        [] []).snapshotGeneration = 1 ∧
      ((syncSnapshotIfNeeded syncOnlyCfg
          { mkSt [] [true] with snapshotGeneration := 1 }).2.1.all fun e =>
          !e.isSetSnapshot) = true ∧
      ((hydrateState noSyncCfg (some ⟨none, [], [], none, none⟩)
          [] []).snapshotGeneration = 0 →
        (some (⟨none, [], [], none, none⟩ : StoredDoc) = none ∨
          ∃ st, some (⟨none, [], [], none, none⟩ : StoredDoc) = some st ∧
            (st.snapshotGeneration = some 0 ∨
              (st.snapshotGeneration = none ∧ st.snapshot = none)))) := by
  refine ⟨?_, ?_, ?_⟩
  · exact metadataless_generation_amended.1 noSyncCfg
      (some ⟨some [5], [], [], none, none⟩) [] []
      ⟨some [5], [], [], none, none⟩ [5] rfl rfl rfl
  · exact (metadataless_generation_amended.2.2 syncOnlyCfg
      { mkSt [] [true] with snapshotGeneration := 1 } (by decide)).1
  · exact metadataless_generation_amended.2.1 noSyncCfg
      (some ⟨none, [], [], none, none⟩) [] []
